import Mathlib

/-!
Shallow embedding of the MathSolver deterministic invariant-matching engine.

Sources embedded (TypeScript):
* `src/types.ts` — `InvariantType`, `SolverLog`, `SolverResult`;
* `src/unnamed/part_000` — the exact `Fraction` type (BigInt arithmetic);
* `src/services/pluginSystem.ts` — `BaseSolverPlugin.createLog`, `gcd`, and the
  `PluginRegistry` (a JS `Map` keyed by plugin name, iterated in insertion order);
* the eight plugin classes under `src/services/plugins/` plus the registry-based
  `AxiomPrimeSolver` appended in `src/services/plugins/spectralZeta.ts`;
* the monolithic `AxiomPrimeSolver` of `src/services/solverEngine.ts` (eleven
  `solveXxx` methods tried in a fixed order).

Modelling conventions:
* JS numbers that are provably integral in the code paths under study are
  embedded as `Nat`/`Int`/`ℚ`; JS BigInt is `Int` (BigInt `/` truncates toward
  zero, embedded as `Int.tdiv`; BigInt `%` is `Int.tmod`).
* Floating-point-by-design computations (the Spectral Zeta Dirichlet sum, the
  Geometric Heron/sqrt area, and JS float-to-string printing) cannot be embedded
  exactly; they are isolated in an explicit `FloatModel` parameter and every
  theorem quantifies over it.  No claim in scope depends on those values.
* A thrown JS exception is `Except.error`; `null` returns are `Option.none`.
* Regular-expression matching is hand-compiled, regex by regex, into total
  scanning functions over `List Char` reproducing the leftmost-match /
  greedy / lazy semantics of the concrete patterns in the source.
* `new Date().toLocaleTimeString()` is an input: every solver function takes
  the current clock string `now` explicitly.
-/

set_option maxRecDepth 4000
set_option synthInstance.maxSize 512

namespace MathSolver

/-- Log severity, from `SolverLog.type` in `src/types.ts`. -/
inductive LogKind
  | info
  | success
  | warning
  | error
deriving DecidableEq, Repr

/-- `SolverLog` of `src/types.ts`: `{timestamp, type, message}`. -/
structure SolverLog where
  timestamp : String
  ltype : LogKind
  message : String
deriving DecidableEq, Repr

/-- The `InvariantType` string enum of `src/types.ts` (tags only; the string
payloads are irrelevant to the claims). -/
inductive InvariantType
  | POLYNOMIAL
  | COMBINATORIAL
  | DIOPHANTINE
  | REPEATING_DECIMAL
  | MODULAR
  | GEOMETRIC
  | NUMBER_THEORY
  | ROOT_DYNAMICS
  | SPECTRAL_ZETA
  | SEQUENCES
  | FUNCTIONAL_EQ
  | QUANTUM_FALLBACK
  | LIVE_TRANSCRIPTION
deriving DecidableEq, Repr

/-- The `answer` field of `SolverResult` (`number | string | null` in
`src/types.ts`).  The deterministic core only produces numbers and strings;
`nan` models the JS `NaN` float that `parseInt` can produce on a sign-only
capture (RootDynamics).  JS `x !== 0` is true for every string and for `NaN`. -/
inductive JSAnswer
  | num (q : ℚ)
  | str (s : String)
  | nan
deriving DecidableEq, Repr

/-- `SolverResult` of `src/types.ts` restricted to the fields the deterministic
core writes (`reasoning`/`groundingSources` are only set by the out-of-scope
fallback service). -/
structure SolverResult where
  answer : JSAnswer
  invariantUsed : Option InvariantType
  steps : List String
  logs : List SolverLog
deriving DecidableEq, Repr

/-- `createLog` of `BaseSolverPlugin` / `AxiomPrimeSolver`: stamps the current
clock reading (here the explicit parameter `now`) onto a message. -/
def createLog (now : String) (message : String) (k : LogKind) : SolverLog :=
  { timestamp := now, ltype := k, message := message }

/-! ## The exact Fraction type (`src/unnamed/part_000`) -/

/-- The `Fraction` class fields: BigInt numerator and denominator. -/
structure Fraction where
  num : Int
  den : Int
deriving DecidableEq, Repr

/-- The `Fraction` constructor.  `gcd` in the source is Euclid on the absolute
values (`while (b > 0n)`), which is exactly `Int.gcd`; BigInt `/` truncates
toward zero (`Int.tdiv`) and is exact here because the gcd divides both
components.  A zero denominator throws. -/
def fracMk (n d : Int) : Except String Fraction :=
  if d = 0 then .error ("Denominator cannot be zero")
  else
    let common : Int := Int.gcd n d
    .ok { num := (if d < 0 then -n else n).tdiv common
          den := (if d < 0 then -d else d).tdiv common }

/-- `Fraction.add`: cross multiplication, then renormalisation by the
constructor. -/
def fracAdd (a b : Fraction) : Except String Fraction :=
  fracMk (a.num * b.den + b.num * a.den) (a.den * b.den)

/-- `Fraction.sub`. -/
def fracSub (a b : Fraction) : Except String Fraction :=
  fracMk (a.num * b.den - b.num * a.den) (a.den * b.den)

/-- `Fraction.mul`. -/
def fracMul (a b : Fraction) : Except String Fraction :=
  fracMk (a.num * b.num) (a.den * b.den)

/-- `Fraction.div`: multiply by the reciprocal.  When the divisor's numerator
is zero the constructor receives a zero denominator and throws. -/
def fracDiv (a b : Fraction) : Except String Fraction :=
  fracMk (a.num * b.den) (a.den * b.num)

/-- `Fraction.toNumber`, embedded exactly (the JS version is a lossy float
division; every use in scope is on values the claims treat exactly). -/
def fracToRat (a : Fraction) : ℚ :=
  (a.num : ℚ) / (a.den : ℚ)

/-- `Fraction.toString`: `"n"` when the denominator is 1, else `"n/d"`. -/
def fracStr (a : Fraction) : String :=
  if a.den = 1 then toString a.num else toString a.num ++ "/" ++ toString a.den

/-! ## String utilities

`problem.toLowerCase()`, `p.includes(t)`, and the character classes of the
regexes in the plugins.  JS `\d` is `[0-9]`, `\w` is `[A-Za-z0-9_]`; `\s` is
embedded as `Char.isWhitespace` (space/tab/CR/LF — the JS class also holds
exotic unicode blanks none of which the engine's patterns rely on). -/

/-- `String.toLowerCase` (ASCII case folding). -/
def lowerL (s : List Char) : List Char := s.map Char.toLower

/-- Left-brace character, kept out of string literals. -/
def lbrace : Char := Char.ofNat 123

/-- Right-brace character. -/
def rbrace : Char := Char.ofNat 125

/-- Does `pat` occur as a leading segment of `hay`? -/
def leadEq : List Char → List Char → Bool
  | [], _ => true
  | _ :: _, [] => false
  | a :: as, b :: bs => a == b && leadEq as bs

/-- Does `pat` occur as a contiguous segment of `hay`?  (JS `includes`.) -/
def subIn (pat : List Char) : List Char → Bool
  | [] => leadEq pat []
  | c :: rest => leadEq pat (c :: rest) || subIn pat rest

/-- JS `haystack.includes(needle)`. -/
def strIncludes (s pat : String) : Bool := subIn pat.data s.data

/-- `triggers.some(t => p.includes(t))`. -/
def anyTrigger (p : String) (ts : List String) : Bool :=
  ts.any (fun t => strIncludes p t)

/-- JS regex `\w` (word character). -/
def isWordCh (c : Char) : Bool := c.isAlphanum || c == '_'

/-- JS regex `\s` (whitespace). -/
def isSpaceCh (c : Char) : Bool := c.isWhitespace

/-- Numeric value of a digit run. -/
def digitsVal (cs : List Char) : Nat :=
  cs.foldl (fun acc c => acc * 10 + (c.toNat - 48)) 0

/-! ## Regex scanning combinators

A matcher is a function `List Char → Option (α × List Char)` returning the
captures and the rest of the input after the match.  `scanM` produces the
leftmost match (JS `String.match` without `g`); `allM` iterates non-overlapping
matches (`matchAll` / the `g` flag); `lazyCh` is `.*?K`: try the continuation
at the current position first, then let `.` consume one non-newline character
and retry (JS `.` does not match `\n`). -/

/-- Leftmost match of `m` (also tried at the empty final position). -/
def scanM (m : List Char → Option (α × List Char)) : List Char → Option (α × List Char)
  | [] => m []
  | c :: rest => (m (c :: rest)).orElse (fun _ => scanM m rest)

/-- All non-overlapping matches, resuming after each match end (fuel-indexed;
every matcher used consumes at least one character per match). -/
def allM (m : List Char → Option (α × List Char)) : Nat → List Char → List α
  | 0, _ => []
  | fuel + 1, s =>
    match scanM m s with
    | none => []
    | some (a, rest) => a :: allM m fuel rest

/-- Lazy `.*?` followed by `m`, stopping at a newline. -/
def lazyCh (m : List Char → Option (α × List Char)) : Nat → List Char → Option (α × List Char)
  | 0, _ => none
  | _ + 1, [] => m []
  | fuel + 1, c :: rest =>
    (m (c :: rest)).orElse (fun _ => if c = '\n' then none else lazyCh m fuel rest)

/-- Match a literal, returning the rest. -/
def dropLit : List Char → List Char → Option (List Char)
  | [], s => some s
  | _ :: _, [] => none
  | a :: as, b :: bs => if a = b then dropLit as bs else none

/-- `\s*` (greedy). -/
def dropSpaces (s : List Char) : List Char := s.dropWhile isSpaceCh

/-- `\s+` (greedy; the continuations in scope always start with a non-space). -/
def spaces1 : List Char → Option (List Char)
  | [] => none
  | c :: rest => if isSpaceCh c then some (dropSpaces rest) else none

/-- `(\d+)` (greedy). -/
def digits1 : List Char → Option (Nat × List Char)
  | [] => none
  | c :: rest =>
    if c.isDigit then
      some (digitsVal ((c :: rest).takeWhile Char.isDigit),
            (c :: rest).dropWhile Char.isDigit)
    else none

/-- `(-?\d+)`: an optional minus sign then a greedy digit run. -/
def sdigits1 : List Char → Option (Int × List Char)
  | [] => none
  | c :: rest =>
    if c = '-' then (digits1 rest).map (fun p => (-(p.1 : Int), p.2))
    else (digits1 (c :: rest)).map (fun p => ((p.1 : Int), p.2))

/-! ## Floating-point boundary

The Spectral Zeta plugin (`Math.cos`/`Math.log`/`toFixed`), the Geometric
solver's `Math.sqrt` Heron area, and JS float printing are floating point by
design and are not embedded; they are collected in this parameter record and
every theorem quantifies over it.  Each field is a pure function of the same
inputs the source computation reads, so determinism is preserved. -/

structure FloatModel where
  spectralT : String → String
  spectralSum : String → String
  spectralAbs : String → String
  spectralScore : String → String
  numToStr : ℚ → String
  heronArea : Int → Int → Int → Int
  heronAreaStr : Int → Int → Int → String

/-- A concrete throwaway instantiation of `FloatModel`, used only to evaluate
closed statements on inputs whose control flow never reaches a float. -/
def floatDummy : FloatModel :=
  { spectralT := fun _ => ("")
    spectralSum := fun _ => ("")
    spectralAbs := fun _ => ("")
    spectralScore := fun _ => ("")
    numToStr := fun _ => ("")
    heronArea := fun _ _ _ => 0
    heronAreaStr := fun _ _ _ => ("") }

/-- `problem.toLowerCase()`. -/
def lowerS (s : String) : String := String.mk (lowerL s.data)

/-- The plugin interface: `(now, problemText) ↦ thrown | (null | result)`. -/
abbrev PluginFun := String → String → Except String (Option SolverResult)

/-! ## Spectral Zeta plugin (`src/services/plugins/spectralZeta.ts`, class) -/

/-- Trigger list of `SpectralZetaPlugin.solve`. -/
def spectralTriggers : List String :=
  ["spectral score", "zeta sum", "riemann", "euler score", "critical line", "frequency t"]

/-- `SpectralZetaPlugin.solve`: trigger check, then the (float) Dirichlet
partial sum; the printed floats come from the `FloatModel`.  The answer is the
score string — a JS string, hence never `=== 0`. -/
def solveSpectralP (F : FloatModel) : PluginFun := fun now x =>
  let p := lowerS x
  if anyTrigger p spectralTriggers then
    .ok (some
      { answer := .str (F.spectralScore x)
        invariantUsed := some .SPECTRAL_ZETA
        steps := [("Analyzing Dirichlet series Re(s)=0.5"),
                  ("Extracted frequency parameter t=" ++ F.spectralT x),
                  ("Computing partial Zeta sum for n=[1, 400]"),
                  ("Calculated magnitude: " ++ F.spectralAbs x),
                  ("Spectral score resolved: " ++ F.spectralScore x)]
        logs := [createLog now ("Analysis: Zeta convergence engine engaged for t=" ++ F.spectralT x) .info,
                 createLog now ("Score resolved: " ++ F.spectralScore x) .success] })
  else .ok none

/-! ## Polynomial plugin (`src/services/plugins/numberTheory.ts`, second half
of the packed file: class `PolynomialPlugin`) -/

/-- Alternation with continuation backtracking: try each literal head in
order, running the continuation `k` after it; on failure fall through to the
next alternative (JS alternation semantics). -/
def altStr (ws : List String) (k : List Char → Option α) (s : List Char) : Option α :=
  match ws with
  | [] => none
  | w :: rest =>
    match dropLit w.data s with
    | some r => (k r).orElse (fun _ => altStr rest k s)
    | none => altStr rest k s

/-- Regex `/leading coeff.*?(-?\d+).*?(-?\d+)/i` (run on the lowercased text:
the captures are sign/digit only). -/
def polyCoeffM (p : List Char) : Option (Int × Int) :=
  (scanM (fun s => do
    let r1 ← dropLit ("leading coeff".data) s
    let (a1, r2) ← lazyCh sdigits1 (r1.length + 1) r1
    let (a2, r3) ← lazyCh sdigits1 (r2.length + 1) r2
    pure ((a1, a2), r3)) p).map Prod.fst

/-- One match of `/\((-?\d+)\s*,\s*(-?\d+)\)/`. -/
def pointM (s : List Char) : Option ((Int × Int) × List Char) := do
  let r1 ← dropLit ("(".data) s
  let (a, r2) ← sdigits1 r1
  let r3 ← dropLit (",".data) (dropSpaces r2)
  let (b, r4) ← sdigits1 (dropSpaces r3)
  let r5 ← dropLit (")".data) r4
  pure ((a, b), r5)

/-- `problem.matchAll(/\((-?\d+)\s*,\s*(-?\d+)\)/g)`. -/
def polyPoints (s : List Char) : List (Int × Int) := allM pointM (s.length + 1) s

/-- Regex `/(?:find|calculate|evaluate)\s+(?:p|q|p\+q)\((\d+)\)/i` applied to
the lowercased text. -/
def polyTargetM (p : List Char) : Option Nat :=
  (scanM (fun s =>
    altStr [("find"), ("calculate"), ("evaluate")] (fun r1 => do
      let r2 ← spaces1 r1
      altStr [("p"), ("q"), ("p+q")] (fun r3 => do
        let r4 ← dropLit ("(".data) r3
        let (n, r5) ← digits1 r4
        let r6 ← dropLit (")".data) r5
        pure (n, r6)) r2) s) p).map Prod.fst

/-- The guard and extraction prefix of `PolynomialPlugin.solve` /
`solvePolynomial`: trigger word, leading coefficients, at least two points, and
the evaluation target (default 0). -/
def polyData (x : String) : Option (Int × Int × Int × Int × Int × Int × Int) :=
  let p := lowerL x.data
  if strIncludes (lowerS x) ("quadratic") || strIncludes (lowerS x) ("polynomial") then
    match polyCoeffM p, polyPoints x.data with
    | some (a1, a2), (x1, y1) :: (x2, y2) :: _ =>
      some (a1, a2, x1, y1, x2, y2, ((polyTargetM p).map Int.ofNat).getD 0)
    | _, _ => none
  else none

/-- `getPolynomialAt` (closure shared verbatim by both source variants):
interpolates the linear/constant coefficients with exact fractions and
evaluates at `tx`; when the two x-coordinates coincide it returns the zero
fraction for the whole value. -/
def getPolynomialAt (a x1 y1 x2 y2 tx : Int) : Except String Fraction := do
  let r1 ← fracMk (y1 - a * x1 * x1) 1
  let r2 ← fracMk (y2 - a * x2 * x2) 1
  if x1 = x2 then fracMk 0 1
  else do
    let s ← fracSub r1 r2
    let dx ← fracMk (x1 - x2) 1
    let b ← fracDiv s dx
    let x1f ← fracMk x1 1
    let bx ← fracMul b x1f
    let c ← fracSub r1 bx
    let quadPart ← fracMk (a * tx * tx) 1
    let txf ← fracMk tx 1
    let linPart ← fracMul b txf
    let acc ← fracAdd quadPart linPart
    fracAdd acc c

/-- `PolynomialPlugin.solve` (registry wording).  `Math.floor(total)` is the
floor of the exact value; JS `%` on numbers truncates (`Int.tmod`). -/
def solvePolynomialP (F : FloatModel) (modn : Int) : PluginFun := fun now x =>
  match polyData x with
  | none => .ok none
  | some (a1, a2, x1, y1, x2, y2, tx) => do
    let pV ← getPolynomialAt a1 x1 y1 x2 y2 tx
    let qV ← getPolynomialAt a2 x1 y1 x2 y2 tx
    let tot ← fracAdd pV qV
    let total := fracToRat tot
    .ok (some
      { answer := .num (((⌊total⌋.tmod modn : ℤ) : ℚ))
        invariantUsed := some .POLYNOMIAL
        steps := [("Mapping quadratic coefficients " ++ toString a1 ++ ", " ++ toString a2),
                  ("Evaluating interpolation points (" ++ toString x1 ++ ", " ++ toString y1 ++
                   "), (" ++ toString x2 ++ ", " ++ toString y2 ++ ")"),
                  ("P(" ++ toString tx ++ ") = " ++ fracStr pV),
                  ("Q(" ++ toString tx ++ ") = " ++ fracStr qV),
                  ("Resulting sum: " ++ F.numToStr total)]
        logs := [createLog now ("Analysis: Polynomial reduction resolved at x=" ++ toString tx) .info,
                 createLog now ("Evaluation successful.") .success] })

/-! ## Number Theory plugin (`src/services/plugins/numberTheory.ts`) -/

/-- The separator `(?:,|\s+|(?:\s+choose\s+))` between the two binomial
arguments, with continuation backtracking in source alternation order.  In the
`\s+` branch the continuation starts with `(\d+)`, so only the maximal space
run can succeed. -/
def binomSep (k : List Char → Option α) (s : List Char) : Option α :=
  match dropLit (",".data) s with
  | some r => (k r).orElse (fun _ =>
      match spaces1 s with
      | some r2 => (k r2).orElse (fun _ =>
          (spaces1 s).bind (fun u => (dropLit ("choose".data) u).bind (fun u2 =>
            (spaces1 u2).bind k)))
      | none => none)
  | none =>
    match spaces1 s with
    | some r2 => (k r2).orElse (fun _ =>
        (spaces1 s).bind (fun u => (dropLit ("choose".data) u).bind (fun u2 =>
          (spaces1 u2).bind k)))
    | none => none

/-- The tail `.*?(?:mod|divided by)\s*(\d+)` shared by both binomial regexes. -/
def modTail (s : List Char) : Option (Nat × List Char) :=
  lazyCh (fun t =>
    altStr [("mod"), ("divided by")] (fun r => digits1 (dropSpaces r)) t)
    (s.length + 1) s

/-- First binomial regex
`/(?:choose|ncr|\\binom|C)\s*\(?(\d+)(?:,|\s+|(?:\s+choose\s+))(\d+)\)?.*?(?:mod|divided by)\s*(\d+)/i`
on the lowercased text («C» case-folds to «c»). -/
def binomM1 (p : List Char) : Option (Nat × Nat × Nat) :=
  (scanM (fun s =>
    altStr [("choose"), ("ncr"), ("\\binom"), ("c")] (fun r1 => do
      let r2 := dropSpaces r1
      let r3 := match dropLit ("(".data) r2 with | some u => u | none => r2
      let (n, r4) ← digits1 r3
      binomSep (fun r5 => do
        let (kk, r6) ← digits1 r5
        let r7 := match dropLit (")".data) r6 with | some u => u | none => r6
        let (pv, r8) ← modTail r7
        pure ((n, kk, pv), r8)) r4) s) p).map Prod.fst

/-- Second binomial regex
`/\((\d+)\s+choose\s+(\d+)\).*?(?:mod|divided by)\s*(\d+)/i`. -/
def binomM2 (p : List Char) : Option (Nat × Nat × Nat) :=
  (scanM (fun s => do
    let r1 ← dropLit ("(".data) s
    let (n, r2) ← digits1 r1
    let r3 ← spaces1 r2
    let r4 ← dropLit ("choose".data) r3
    let r5 ← spaces1 r4
    let (kk, r6) ← digits1 r5
    let r7 ← dropLit (")".data) r6
    let (pv, r8) ← modTail r7
    pure ((n, kk, pv), r8)) p).map Prod.fst

/-- `binomialMatch`: first regex, `||` second. -/
def binomM (p : List Char) : Option (Nat × Nat × Nat) :=
  (binomM1 p).orElse (fun _ => binomM2 p)

/-- The inner `power` helper (binary exponentiation mod `m`).  For `b = 0` the
loop body never runs and the result is the initial `1` (notably 1 even when
`m = 1`); otherwise it agrees with `a ^ b % m`. -/
def jsPowMod (a b m : Nat) : Nat := if b = 0 then 1 else a ^ b % m

/-- `nCrModP`: factorial products mod `p` combined with a Fermat inverse. -/
def nCrModP (n r p : Nat) : Nat :=
  if r = 0 then 1
  else if r > n then 0
  else
    let num := (List.range r).foldl (fun acc i => acc * (n - i) % p) 1
    let den := (List.range r).foldl (fun acc i => acc * (i + 1) % p) 1
    num * jsPowMod den (p - 2) p % p

/-- The recursive `lucas` helper.  JS recursion on `Math.floor(k/p)` diverges
(stack overflow, i.e. a thrown error) when `p ≤ 1` and `k ≠ 0`; divergence is
modelled by fuel exhaustion / the explicit `p = 0` guard returning `none`. -/
def lucasRec : Nat → Nat → Nat → Nat → Option Nat
  | 0, _, _, _ => none
  | fuel + 1, n, k, p =>
    if k = 0 then some 1
    else if p = 0 then none
    else
      (lucasRec fuel (n / p) (k / p) p).map
        (fun l => l * nCrModP (n % p) (k % p) p % p)

/-- `lucas(n, k, p)`; fuel `k + 1` suffices for every `p ≥ 2`. -/
def lucasJS (n k p : Nat) : Option Nat := lucasRec (k + 1) n k p

/-- The inner `while (temp % i === 0) temp /= i` loop of the totient branch. -/
def totStrip : Nat → Nat → Nat → Nat
  | 0, temp, _ => temp
  | fuel + 1, temp, i => if temp % i = 0 then totStrip fuel (temp / i) i else temp

/-- The trial-division `for` loop of the totient branch, returning the final
`(temp, result)` pair. -/
def totLoop : Nat → Nat → Nat → Nat → Nat × Nat
  | 0, _, temp, result => (temp, result)
  | fuel + 1, i, temp, result =>
    if i * i ≤ temp then
      if temp % i = 0 then
        totLoop fuel (i + 1) (totStrip (temp + 1) temp i) (result - result / i)
      else totLoop fuel (i + 1) temp result
    else (temp, result)

/-- The Euler totient computation of the totient branch. -/
def totientJS (n : Nat) : Nat :=
  let tr := totLoop (n + 2) 2 n n
  if tr.1 > 1 then tr.2 - tr.2 / tr.1 else tr.2

/-- `problem.match(/(\d+)/)`: the leftmost maximal digit run. -/
def firstNum (s : List Char) : Option Nat := (scanM digits1 s).map Prod.fst

/-- `NumberTheoryPlugin.solve` (registry wording): Lucas branch on the
binomial pattern, else the totient branch on its trigger words. -/
def solveNumberTheoryP : PluginFun := fun now x =>
  let p := lowerS x
  match binomM (lowerL x.data) with
  | some (n, k, pv) =>
    match lucasJS n k pv with
    | none => .error ("Maximum call stack size exceeded")
    | some ans =>
      .ok (some
        { answer := .num (ans : ℚ)
          invariantUsed := some .NUMBER_THEORY
          steps := [("Applying Lucas Theorem for n=" ++ toString n ++ ", k=" ++ toString k ++
                     ", mod " ++ toString pv),
                    ("Base-" ++ toString pv ++ " decomposition successful"),
                    ("Modular congruence: " ++ toString ans)]
          logs := [createLog now ("Analysis: Modular binomial reduction completed.") .info] })
  | none =>
    if strIncludes p ("totient") || strIncludes p ("phi") ||
       (strIncludes p ("relatively prime") && strIncludes p ("less than")) then
      match firstNum x.data with
      | some n =>
        let result := totientJS n
        .ok (some
          { answer := .num (result : ℚ)
            invariantUsed := some .NUMBER_THEORY
            steps := [("Euler Totient analysis for n=" ++ toString n),
                      ("Prime factorization complete"),
                      ("φ(" ++ toString n ++ ") = " ++ toString result)]
            logs := [createLog now ("Analysis: Eulerian totient calculated.") .info] })
      | none => .ok none
    else .ok none

/-! ## Combinatorial plugin (second half of the packed
`src/services/pluginSystem.ts`: class `CombinatorialPlugin`) -/

/-- First alternative `s(?:_|\[|\{)?(\d+)(?:\]|\})?` of the `nMatch` regex:
`s`, an optional `_`/`[`/`{` (consumed only when digits follow — otherwise the
optional group backtracks and the digit requirement fails), a digit run, and
an optional closing bracket. -/
def combAlt1 : List Char → Option (Nat × List Char)
  | [] => none
  | c :: rest =>
    if c = 's' then
      match rest with
      | [] => none
      | b :: rest2 =>
        if b = '_' || b = '[' || b = lbrace then
          (digits1 rest2).map (fun nr =>
            (nr.1, match nr.2 with
                   | [] => []
                   | d :: rr => if d = ']' || d = rbrace then rr else d :: rr))
        else
          (digits1 (b :: rest2)).map (fun nr =>
            (nr.1, match nr.2 with
                   | [] => []
                   | d :: rr => if d = ']' || d = rbrace then rr else d :: rr))
    else none

/-- Second alternative `n\s*=\s*(\d+)`. -/
def combAlt2 : List Char → Option (Nat × List Char)
  | [] => none
  | c :: rest =>
    if c = 'n' then do
      let r1 ← dropLit ("=".data) (dropSpaces rest)
      digits1 (dropSpaces r1)
    else none

/-- `p.match(/s(?:_|\[|\{)?(\d+)(?:\]|\})?|n\s*=\s*(\d+)/i)`, with the source's
`parseInt(nMatch[1] || nMatch[2])` selection. -/
def combNRegex (p : List Char) : Option Nat :=
  (scanM (fun s => (combAlt1 s).orElse (fun _ => combAlt2 s)) p).map Prod.fst

/-- Trigger list of the registry `CombinatorialPlugin`. -/
def combTriggersP : List String :=
  ["subset", "intersect", "s_n", "ordered pair", "set s"]

/-- `CombinatorialPlugin.solve`: `n · 4^(n-1)` mod the configured modulus.
For `n = 0` the source evaluates `4n ** BigInt(-1)`, which throws a
`RangeError` (negative BigInt exponent). -/
def solveCombinatorialP (modn : Nat) : PluginFun := fun now x =>
  let p := lowerS x
  if ¬ anyTrigger p combTriggersP then .ok none
  else
    match combNRegex (lowerL x.data) with
    | none => .ok none
    | some n =>
      match n with
      | 0 => .error ("Exponent must be non-negative")
      | m + 1 =>
        let result := (m + 1) * 4 ^ m
        .ok (some
          { answer := .num ((result % modn : ℕ) : ℚ)
            invariantUsed := some .COMBINATORIAL
            steps := [("Subset intersection identity applied for n=" ++ toString (m + 1)),
                      ("Identity Σ |A ∩ B| = n * 4^(n-1)"),
                      ("Result: " ++ toString result)]
            logs := [createLog now ("Analysis: Combinatorial identity verified.") .info,
                     createLog now ("Result mapped to modulo space.") .success] })

/-! ## Diophantine plugin (`src/unnamed/part_002`: class `DiophantinePlugin`) -/

/-- `problem.match(/\b\d+\b/g)`: maximal digit runs whose neighbours (when
present) are not word characters.  `prevWord` records whether the character
before the current position is a word character. -/
def wordNumsGo : Nat → Bool → List Char → List Nat
  | 0, _, _ => []
  | _ + 1, _, [] => []
  | fuel + 1, prevWord, c :: rest =>
    if c.isDigit && !prevWord then
      let run := (c :: rest).takeWhile Char.isDigit
      let rest2 := (c :: rest).dropWhile Char.isDigit
      match rest2 with
      | [] => [digitsVal run]
      | d :: _ =>
        if isWordCh d then wordNumsGo fuel true rest2
        else digitsVal run :: wordNumsGo fuel true rest2
    else wordNumsGo fuel (isWordCh c) rest

/-- All `\b\d+\b` matches of a string. -/
def jsWordNums (s : List Char) : List Nat := wordNumsGo (s.length + 1) false s

/-- Trigger list of `DiophantinePlugin.solve`. -/
def diophTriggers : List String :=
  ["largest integer", "cannot be written", "cannot be expressed",
   "impossible sum", "chicken mcnugget", "frobenius"]

/-- `nums.filter(n => n >= 2 && n <= 500)`. -/
def diophCoeffs (x : String) : List Nat :=
  (jsWordNums x.data).filter (fun n => decide (2 ≤ n) && decide (n ≤ 500))

/-- `DiophantinePlugin.solve`: Frobenius number `ab - a - b` (mod the
configured modulus) for the first two qualifying integers, or the string
sentinel `"Infinity"` when they are not coprime. -/
def solveDiophantineP (modn : Int) : PluginFun := fun now x =>
  let p := lowerS x
  if ¬ anyTrigger p diophTriggers then .ok none
  else
    match diophCoeffs x with
    | a :: b :: _ =>
      if Nat.gcd a b ≠ 1 then
        .ok (some
          { answer := .str ("Infinity")
            invariantUsed := some .DIOPHANTINE
            steps := [("Gaps are infinite for non-coprime generators " ++
                       toString a ++ ", " ++ toString b)]
            logs := [createLog now ("Analysis: Non-coprime boundary detected.") .info] })
      else
        let result : Int := a * b - a - b
        .ok (some
          { answer := .num ((result.tmod modn : ℤ) : ℚ)
            invariantUsed := some .DIOPHANTINE
            steps := [("Applying Frobenius identity for \x7b" ++ toString a ++ ", " ++
                       toString b ++ "\x7d"),
                      ("G(a,b) = ab - a - b"),
                      ("Outcome: " ++ toString result)]
            logs := [createLog now ("Analysis: Diophantine boundary resolved.") .info,
                     createLog now ("Calculation complete.") .success] })
    | _ => .ok none

/-! ## Sequences plugin (`src/services/plugins/sequences.ts`) -/

/-- Regex
`/arithmetic.*?first term\s*(\d+).*?common difference\s*(\d+).*?(\d+)\s*terms/i`
on the (already lowercased) `p`. -/
def arithM (p : List Char) : Option (Nat × Nat × Nat) :=
  (scanM (fun s => do
    let r1 ← dropLit ("arithmetic".data) s
    let (a, r2) ← lazyCh (fun t => do
      let u ← dropLit ("first term".data) t
      digits1 (dropSpaces u)) (r1.length + 1) r1
    let (d, r3) ← lazyCh (fun t => do
      let u ← dropLit ("common difference".data) t
      digits1 (dropSpaces u)) (r2.length + 1) r2
    let (n, r4) ← lazyCh (fun t => do
      let (n, u) ← digits1 t
      let u2 ← dropLit ("terms".data) (dropSpaces u)
      pure (n, u2)) (r3.length + 1) r3
    pure ((a, d, n), r4)) p).map Prod.fst

/-- The arithmetic sum the plugin computes: `(n / 2) * (2 * a + (n - 1) * d)`
in JS floats, embedded as the exact rational. -/
def arithSum (a d n : Nat) : ℚ :=
  ((n : ℚ) / 2) * (2 * (a : ℚ) + ((n : ℚ) - 1) * (d : ℚ))

/-- `SequencesPlugin.solve` (registry wording): trigger, arithmetic match,
standard arithmetic series sum (geometric phrasing triggers but never
matches — falls through to `null`). -/
def solveSequencesP (F : FloatModel) : PluginFun := fun now x =>
  let p := lowerS x
  if ¬ (strIncludes p ("progression") || strIncludes p ("arithmetic series") ||
        strIncludes p ("geometric series")) then .ok none
  else
    match arithM (lowerL x.data) with
    | some (a, d, n) =>
      let sum := arithSum a d n
      .ok (some
        { answer := .num sum
          invariantUsed := some .SEQUENCES
          steps := [("Arithmetic Progression: a=" ++ toString a ++ ", d=" ++ toString d ++
                     ", n=" ++ toString n),
                    ("Sum Formula: n/2 * (2a + (n-1)d)"),
                    ("Result: " ++ F.numToStr sum)]
          logs := [createLog now ("Analysis: Sequence summation complete.") .info] })
    | none => .ok none

/-! ## Root Dynamics plugin (`src/services/plugins/rootDynamics.ts`) -/

/-- One `([+-]\s*\d*)` capture group: the sign, then the digit run (the
whitespace the group also captures is stripped by the caller via
`.replace(/\s/g, '')`, so only sign and digits are retained). -/
def signGroup : List Char → Option ((Char × List Char) × List Char)
  | [] => none
  | c :: rest =>
    if c = '+' || c = '-' then
      let r1 := dropSpaces rest
      some ((c, r1.takeWhile Char.isDigit), r1.dropWhile Char.isDigit)
    else none

/-- Regex `/x\^2\s*([+-]\s*\d*)\s*x\s*([+-]\s*\d*)\s*=\s*0/i` on the
lowercased text. -/
def rootPolyM (p : List Char) : Option ((Char × List Char) × (Char × List Char)) :=
  (scanM (fun s => do
    let r1 ← dropLit ("x^2".data) s
    let (g1, r2) ← signGroup (dropSpaces r1)
    let r3 ← dropLit ("x".data) (dropSpaces r2)
    let (g2, r4) ← signGroup (dropSpaces r3)
    let r5 ← dropLit ("=".data) (dropSpaces r4)
    let r6 ← dropLit ("0".data) (dropSpaces r5)
    pure ((g1, g2), r6)) p).map Prod.fst

/-- `parseInt` of the stripped first group: `"+"` ↦ 1, `"-"` ↦ -1, else the
signed value (the source's `''` case is unreachable since the group always
starts with a sign). -/
def rootB (g : Char × List Char) : Int :=
  match g.2 with
  | [] => if g.1 = '+' then 1 else -1
  | ds => (if g.1 = '-' then -1 else 1) * (digitsVal ds : Int)

/-- `parseInt` of the stripped second group; a bare sign parses to `NaN`,
modelled as `none`. -/
def rootC (g : Char × List Char) : Option Int :=
  match g.2 with
  | [] => none
  | ds => some ((if g.1 = '-' then -1 else 1) * (digitsVal ds : Int))

/-- Rendering of a possibly-`NaN` integer in the step strings. -/
def intNaN : Option Int → String
  | some v => toString v
  | none => ("NaN")

/-- `RootDynamicsPlugin.solve` (registry wording): Vieta for «sum of the
roots», Newton for «sum of the squares». -/
def solveRootDynamicsP : PluginFun := fun now x =>
  let p := lowerS x
  if ¬ strIncludes p ("root") then .ok none
  else
    match rootPolyM (lowerL x.data) with
    | none => .ok none
    | some (g1, g2) =>
      let b := rootB g1
      let c := rootC g2
      let e1 := -b
      if strIncludes p ("sum of the roots") then
        .ok (some
          { answer := .num ((e1 : ℤ) : ℚ)
            invariantUsed := some .ROOT_DYNAMICS
            steps := [("Quadratic: x² + " ++ toString b ++ "x + " ++ intNaN c ++ " = 0"),
                      ("Vieta Identity: Σr = -b/a = " ++ toString e1)]
            logs := [createLog now ("Analysis: Vieta\x27s identity applied.") .info] })
      else if strIncludes p ("sum of the squares") then
        let sumSquares : Option Int := c.map (fun cv => e1 * e1 - 2 * cv)
        .ok (some
          { answer := match sumSquares with
                      | some v => .num ((v : ℤ) : ℚ)
                      | none => .nan
            invariantUsed := some .ROOT_DYNAMICS
            steps := [("Quadratic: x² + " ++ toString b ++ "x + " ++ intNaN c ++ " = 0"),
                      ("Newton\x27s Sum Identity: Σr² = (Σr)² - 2Σr₁r₂"),
                      ("Calculation: " ++ toString e1 ++ "² - 2(" ++ intNaN c ++ ") = " ++
                       intNaN sumSquares)]
            logs := [createLog now ("Analysis: Newton sums applied.") .info] })
      else .ok none

/-! ## Functional Equation plugin (`src/services/plugins/functionalEquation.ts`) -/

/-- `p.match(/f\((\d+)\)/)`. -/
def feTargetM (p : List Char) : Option Nat :=
  (scanM (fun s => do
    let r1 ← dropLit ("f(".data) s
    let (n, r2) ← digits1 r1
    let r3 ← dropLit (")".data) r2
    pure (n, r3)) p).map Prod.fst

/-- `FunctionalEquationPlugin.solve`: shifted-Cauchy detection returning the
symbolic string answer. -/
def solveFunctionalEqP : PluginFun := fun now x =>
  let p := lowerS x
  if strIncludes p ("f(m)") && strIncludes p ("f(n)") && strIncludes p ("f(m + n + mn)") then
    match feTargetM (lowerL x.data) with
    | some n =>
      .ok (some
        { answer := .str ("c * log(" ++ toString (n + 1) ++ ")")
          invariantUsed := some .FUNCTIONAL_EQ
          steps := [("Shifted Cauchy equation identified"),
                    ("Substitution: g(x) = f(x-1)"),
                    ("Logarithmic solution space detected for x+1")]
          logs := [createLog now ("Analysis: Cauchy mapping complete.") .info] })
    | none => .ok none
  else .ok none

/-! ## Plugin registry (`PluginRegistry` of `src/services/pluginSystem.ts`)

A JS `Map` preserves first-insertion order and `set` on an existing key
replaces the value in place; the map is embedded as an association list with
exactly those semantics. -/

/-- A registered plugin record (`name` plus its `solve`). -/
structure PluginRec where
  name : String
  run : PluginFun

/-- JS `Map.prototype.set`: replace in place when the key exists, else append. -/
def mapSet (m : List (String × α)) (k : String) (v : α) : List (String × α) :=
  if m.any (fun e => e.1 == k) then
    m.map (fun e => if e.1 == k then (k, v) else e)
  else m ++ [(k, v)]

/-- JS `Map.prototype.get`. -/
def mapGet (m : List (String × α)) (k : String) : Option α :=
  (m.find? (fun e => e.1 == k)).map Prod.snd

/-- JS `Map.prototype.has`. -/
def mapHas (m : List (String × α)) (k : String) : Bool :=
  m.any (fun e => e.1 == k)

/-- JS `Map.prototype.delete` (result pair: the new map and the JS boolean). -/
def mapDelete (m : List (String × α)) (k : String) : List (String × α) × Bool :=
  (m.filter (fun e => ¬ e.1 == k), m.any (fun e => e.1 == k))

/-- `Map.prototype.keys()` in iteration order (`getPluginNames`). -/
def mapKeys (m : List (String × α)) : List String := m.map Prod.fst

/-- `Map.prototype.values()` in iteration order (`getAllPlugins`). -/
def mapValues (m : List (String × α)) : List α := m.map Prod.snd

/-- `PluginRegistry.register`: `this.plugins.set(plugin.name, plugin)`. -/
def regRegister (m : List (String × PluginRec)) (p : PluginRec) : List (String × PluginRec) :=
  mapSet m p.name p

/-- The eight plugin records constructed by
`AxiomPrimeSolver.initializePlugins` (registry variant, appended in
`src/services/plugins/spectralZeta.ts`), in registration order. -/
def spectralRec (F : FloatModel) : PluginRec := ⟨"spectral-zeta", solveSpectralP F⟩

/-- `new PolynomialPlugin(this.modulo)`. -/
def polynomialRec (F : FloatModel) (modn : Int) : PluginRec :=
  ⟨"polynomial", solvePolynomialP F modn⟩

/-- `new NumberTheoryPlugin()`. -/
def numberTheoryRec : PluginRec := ⟨"number-theory", solveNumberTheoryP⟩

/-- `new CombinatorialPlugin(this.modulo)`. -/
def combinatorialRec (modn : Nat) : PluginRec := ⟨"combinatorial", solveCombinatorialP modn⟩

/-- `new DiophantinePlugin(this.modulo)`. -/
def diophantineRec (modn : Int) : PluginRec := ⟨"diophantine", solveDiophantineP modn⟩

/-- `new SequencesPlugin()`. -/
def sequencesRec (F : FloatModel) : PluginRec := ⟨"sequences", solveSequencesP F⟩

/-- `new RootDynamicsPlugin()`. -/
def rootDynamicsRec : PluginRec := ⟨"root-dynamics", solveRootDynamicsP⟩

/-- `new FunctionalEquationPlugin()`. -/
def functionalEquationRec : PluginRec := ⟨"functional-equation", solveFunctionalEqP⟩

/-- `initializePlugins`: eight `register` calls on the fresh registry, in
source order. -/
def registryInit (F : FloatModel) (modn : Nat) : List (String × PluginRec) :=
  [spectralRec F, polynomialRec F modn, numberTheoryRec, combinatorialRec modn,
   diophantineRec modn, sequencesRec F, rootDynamicsRec,
   functionalEquationRec].foldl regRegister []

/-! ## Dispatcher -/

/-- The fallback sentinel of the registry-variant `solve` (identical text in
the monolithic variant's sibling of `spectralZeta.ts`). -/
def fallbackR (now : String) : SolverResult :=
  { answer := .num 0
    invariantUsed := none
    steps := [("No deterministic invariant found. Switching to stochastic logic engine.")]
    logs := [createLog now ("Analysis: Deterministic bypass. Engaging Gemini engine.") .warning] }

/-- The fallback sentinel of the monolithic `solverEngine.ts` `solve`. -/
def fallbackM (now : String) : SolverResult :=
  { answer := .num 0
    invariantUsed := none
    steps := [("No deterministic invariant matched. Escalating to stochastic Quantum manifold.")]
    logs := [createLog now ("Lumina: All internal engines bypassed. engaging Gemini 3.0 Pro.") .warning] }

/-- The per-plugin acceptance step of `solve`:
`try { const result = ...; if (result && (result.answer !== 0 ||
result.invariantUsed !== null)) return result; } catch { continue; }` —
a thrown error, a `null`, or a tagless numeric-zero outcome are all
"no match"; anything else is accepted. -/
def acceptRes : Except String (Option SolverResult) → Option SolverResult
  | .error _ => none
  | .ok none => none
  | .ok (some r) => if r.answer = .num 0 ∧ r.invariantUsed = none then none else some r

/-- The scanning loop of `solve`: try each plugin function in order, return
the first accepted outcome, else the fallback sentinel. -/
def runQueue (fb : SolverResult) (now : String) : List PluginFun → String → SolverResult
  | [], _ => fb
  | f :: fs, x =>
    match acceptRes (f now x) with
    | some r => r
    | none => runQueue fb now fs x

/-- The registry-variant `AxiomPrimeSolver.solve`: iterate
`registry.getAllPlugins()` in order with the acceptance filter, else the
fallback sentinel. -/
def solveRegistry (F : FloatModel) (modn : Nat) (now x : String) : SolverResult :=
  runQueue (fallbackR now) now
    ((mapValues (registryInit F modn)).map (fun p => p.run)) x

/-! ## The monolithic `AxiomPrimeSolver` of `src/services/solverEngine.ts`

Same algorithms, its own step/log wording, three additional solvers
(RepeatingDecimal, Modular, Geometric), and an eleven-entry dispatch list. -/

/-- Trigger list of the monolithic `solveSpectralZeta` (has the extra
`'spectral nonce'`). -/
def spectralTriggersM : List String :=
  ["spectral score", "zeta sum", "riemann", "euler score", "critical line",
   "frequency t", "spectral nonce"]

/-- `solveSpectralZeta` (monolithic wording). -/
def solveSpectralZetaM (F : FloatModel) : PluginFun := fun now x =>
  let p := lowerS x
  if anyTrigger p spectralTriggersM then
    .ok (some
      { answer := .str (F.spectralScore x)
        invariantUsed := some .SPECTRAL_ZETA
        steps := [("Detected Spectral Work manifold traversal"),
                  ("Resolved frequency t=" ++ F.spectralT x ++
                   " (Method: Precision Manifold Extraction)"),
                  ("Mapping to Critical Line Re(s)=0.5"),
                  ("Summing Dirichlet terms: Σ n^-0.5 * cos(t * ln n) for n=[1, 400]"),
                  ("Calculated partial Zeta sum: " ++ F.spectralSum x),
                  ("Spectral Score (1/|Sum|): " ++ F.spectralScore x)]
        logs := [createLog now ("Lumina: Spectral Proof manifold engaged for t=" ++ F.spectralT x) .info,
                 createLog now ("Zeta convergence verified. Score: " ++ F.spectralScore x) .success] })
  else .ok none

/-- `solvePolynomial` (monolithic wording; identical extraction and
arithmetic). -/
def solvePolynomialM (F : FloatModel) (modn : Int) : PluginFun := fun now x =>
  match polyData x with
  | none => .ok none
  | some (a1, a2, x1, y1, x2, y2, tx) => do
    let pV ← getPolynomialAt a1 x1 y1 x2 y2 tx
    let qV ← getPolynomialAt a2 x1 y1 x2 y2 tx
    let tot ← fracAdd pV qV
    let total := fracToRat tot
    .ok (some
      { answer := .num (((⌊total⌋.tmod modn : ℤ) : ℚ))
        invariantUsed := some .POLYNOMIAL
        steps := [("Detected quadratic system: leading coeffs " ++ toString a1 ++ ", " ++ toString a2),
                  ("Reference points: (" ++ toString x1 ++ ", " ++ toString y1 ++ "), (" ++
                   toString x2 ++ ", " ++ toString y2 ++ ")"),
                  ("Linear reduction path: R(x) = P(x) + Q(x) - (a1+a2)x²"),
                  ("Evaluating at x=" ++ toString tx),
                  ("P(" ++ toString tx ++ ") = " ++ fracStr pV),
                  ("Q(" ++ toString tx ++ ") = " ++ fracStr qV),
                  ("Invariant Sum: " ++ F.numToStr total)]
        logs := [createLog now ("Lumina: Polynomial manifold evaluation at x=" ++ toString tx) .info,
                 createLog now ("Sum resolved: " ++ F.numToStr total) .success] })

/-- `solveNumberTheory` (monolithic wording). -/
def solveNumberTheoryM : PluginFun := fun now x =>
  let p := lowerS x
  match binomM (lowerL x.data) with
  | some (n, k, pv) =>
    match lucasJS n k pv with
    | none => .error ("Maximum call stack size exceeded")
    | some ans =>
      .ok (some
        { answer := .num (ans : ℚ)
          invariantUsed := some .NUMBER_THEORY
          steps := [("Lucas\x27s Theorem trigger: n=" ++ toString n ++ ", k=" ++ toString k ++
                     ", mod p=" ++ toString pv),
                    ("Decomposing n and k into base-" ++ toString pv ++ " representations"),
                    ("Applying identity: (n choose k) ≡ Π (n_i choose k_i) mod p"),
                    ("Final modular congruence: " ++ toString ans)]
          logs := [createLog now ("Lumina: Lucas manifold engaged for binomial congruence") .info] })
  | none =>
    if strIncludes p ("totient") || strIncludes p ("phi") ||
       (strIncludes p ("relatively prime") && strIncludes p ("less than")) then
      match firstNum x.data with
      | some n =>
        let result := totientJS n
        .ok (some
          { answer := .num (result : ℚ)
            invariantUsed := some .NUMBER_THEORY
            steps := [("Euler\x27s Totient Invariant detected for n=" ++ toString n),
                      ("Prime factorization of " ++ toString n ++ " utilized for product formula"),
                      ("φ(n) = n * Π(1 - 1/p)"),
                      ("Calculated totient: " ++ toString result)]
            logs := [createLog now ("Lumina: Eulerian reduction complete for φ(" ++
                       toString n ++ ")") .info] })
      | none => .ok none
    else .ok none

/-- Character class `[\s\d,\.\w]` of the set-literal regex. -/
def setClassCh (c : Char) : Bool :=
  isSpaceCh c || c.isDigit || c = ',' || c = '.' || isWordCh c

/-- `problem.match(/\{[\s\d,\.\w]+\}/)`: the interior of the first
brace-delimited run of class characters (the braces carry no digits, so the
interior suffices for the digit scan that follows). -/
def setMatchM (s : List Char) : Option (List Char) :=
  (scanM (fun t =>
    match t with
    | [] => none
    | c :: rest =>
      if c = lbrace then
        let run := rest.takeWhile setClassCh
        let rest2 := rest.dropWhile setClassCh
        if run.isEmpty then none
        else
          match rest2 with
          | d :: rr => if d = rbrace then some (run, rr) else none
          | [] => none
      else none) s).map Prod.fst

/-- The set-literal fallback for `n`: last `\d+` run inside the matched set
literal (`parseInt(nums[nums.length - 1])`). -/
def combNSet (s : List Char) : Option Nat :=
  (setMatchM s).bind (fun run => (allM digits1 (run.length + 1) run).getLast?)

/-- Core of the `"set of N elements"` pattern after the optional `of`. -/
def combElemCore (r : List Char) : Option (Nat × List Char) := do
  let (n, u) ← digits1 r
  let u2 ← spaces1 u
  altStr [("elements"), ("items"), ("members"), ("runners")] (fun v => some (n, v)) u2

/-- Regex `/set\s+(?:of\s+)?(\d+)\s+(?:elements|items|members|runners)/i`. -/
def combNElem (p : List Char) : Option Nat :=
  (scanM (fun s => do
    let r1 ← dropLit ("set".data) s
    let r2 ← spaces1 r1
    ((dropLit ("of".data) r2).bind (fun u => (spaces1 u).bind combElemCore)).orElse
      (fun _ => combElemCore r2)) p).map Prod.fst

/-- `solveCombinatorial`'s `n` resolution: the `s_n`/`n=` regex, then the set
literal, then the `"set of N elements"` phrasing — first hit wins. -/
def combNMono (x : String) : Option Nat :=
  match combNRegex (lowerL x.data) with
  | some n => some n
  | none =>
    match combNSet x.data with
    | some n => some n
    | none => combNElem (lowerL x.data)

/-- Trigger list of the monolithic `solveCombinatorial` (three extra
phrases). -/
def combTriggersM : List String :=
  ["subset", "intersect", "s_n", "ordered pair", "set s",
   "size of the intersection", "sum over all pairs", "union and intersection"]

/-- `solveCombinatorial` (monolithic wording). -/
def solveCombinatorialM (modn : Nat) : PluginFun := fun now x =>
  let p := lowerS x
  if ¬ anyTrigger p combTriggersM then .ok none
  else
    match combNMono x with
    | none => .ok none
    | some 0 => .error ("Exponent must be non-negative")
    | some (m + 1) =>
      let result := (m + 1) * 4 ^ m
      .ok (some
        { answer := .num ((result % modn : ℕ) : ℚ)
          invariantUsed := some .COMBINATORIAL
          steps := [("Subset Intersection Identity (S_n) for n=" ++ toString (m + 1)),
                    ("Axiomatic Mapping: Σ |A ∩ B| = n * 4^(n-1)"),
                    ("Reasoning: Each element i is in both A and B in 1/4 of total 2^n * 2^n pairs."),
                    ("Calculation: " ++ toString (m + 1) ++ " * 4^(" ++ toString (m + 1) ++
                     "-1) = " ++ toString result)]
          logs := [createLog now ("Lumina: Combinatorial manifold mapped to 4^n space") .info,
                   createLog now ("Identity resolved.") .success] })

/-- `solveDiophantine` (monolithic wording). -/
def solveDiophantineM (modn : Int) : PluginFun := fun now x =>
  let p := lowerS x
  if ¬ anyTrigger p diophTriggers then .ok none
  else
    match diophCoeffs x with
    | a :: b :: _ =>
      if Nat.gcd a b ≠ 1 then
        .ok (some
          { answer := .str ("Infinity")
            invariantUsed := some .DIOPHANTINE
            steps := [("Coefficients " ++ toString a ++ ", " ++ toString b ++
                       " are not relatively prime (gcd=" ++ toString (Nat.gcd a b) ++ ")"),
                      ("Non-relprime generators leave infinite gaps.")]
            logs := [createLog now ("Lumina: Frobenius singularity detected (gcd > 1)") .error] })
      else
        let result : Int := a * b - a - b
        .ok (some
          { answer := .num ((result.tmod modn : ℤ) : ℚ)
            invariantUsed := some .DIOPHANTINE
            steps := [("Trigger: Frobenius Boundary Invariant"),
                      ("Identified generators: a=" ++ toString a ++ ", b=" ++ toString b),
                      ("Condition: gcd(" ++ toString a ++ ", " ++ toString b ++ ") = 1 verified."),
                      ("Applying Formula: g(a,b) = ab - a - b"),
                      ("Outcome: " ++ toString a ++ "*" ++ toString b ++ " - " ++ toString a ++
                       " - " ++ toString b ++ " = " ++ toString result)]
            logs := [createLog now ("Lumina: Diophantine boundary resolved for generators \x7b" ++
                       toString a ++ ", " ++ toString b ++ "\x7d") .info,
                     createLog now ("Gaps verified.") .success] })
    | _ => .ok none

/-- Regex `/\\overline\{(\d+)\}/`: yields `10^(capture length) - 1`. -/
def overlineM (s : List Char) : Option Nat :=
  (scanM (fun t => do
    let r1 ← dropLit ("\\overline".data) t
    match r1 with
    | [] => none
    | c :: rest =>
      if c = lbrace then
        let run := rest.takeWhile Char.isDigit
        let rest2 := rest.dropWhile Char.isDigit
        if run.isEmpty then none
        else
          match rest2 with
          | d :: rr => if d = rbrace then some ((10 : Nat) ^ run.length - 1, rr) else none
          | [] => none
      else none) s).map Prod.fst

/-- Regex `/period\s+of\s+(\d+)/i`. -/
def periodM (p : List Char) : Option Nat :=
  (scanM (fun s => do
    let r1 ← dropLit ("period".data) s
    let r2 ← spaces1 r1
    let r3 ← dropLit ("of".data) r2
    let r4 ← spaces1 r3
    digits1 r4) p).map Prod.fst

/-- The period denominator `d` of `solveRepeatingDecimal`. -/
def repDecD (x : String) : Option Nat :=
  match overlineM x.data with
  | some d => some d
  | none =>
    match periodM (lowerL x.data) with
    | some n => some ((10 : Nat) ^ n - 1)
    | none =>
      if strIncludes (lowerS x) ("two digits") then some 99
      else if strIncludes (lowerS x) ("three digits") then some 999
      else none

/-- `Σ_{k=1}^{d} floor(k / gcd(k, d))`. -/
def repDecSum (d : Nat) : Nat :=
  ((List.range d).map (fun k => (k + 1) / Nat.gcd (k + 1) d)).sum

/-- `solveRepeatingDecimal`. -/
def solveRepeatingDecimalM (modn : Nat) : PluginFun := fun now x =>
  let p := lowerS x
  if ¬ (strIncludes p ("repeating") || strIncludes p ("overline") || strIncludes p ("period"))
  then .ok none
  else
    match repDecD x with
    | none => .ok none
    | some d =>
      let total := repDecSum d
      .ok (some
        { answer := .num ((total % modn : ℕ) : ℚ)
          invariantUsed := some .REPEATING_DECIMAL
          steps := [("Repeating decimal period manifold: d=" ++ toString d),
                    ("Axiom: Rational representation of 0.(period) is period / (10^L - 1)"),
                    ("Invariant Sum k / gcd(k, d) evaluated across domain [1, " ++ toString d ++ "]"),
                    ("Total accumulation: " ++ toString total)]
          logs := [createLog now ("Lumina: Period summation verified for d=" ++ toString d) .info,
                   createLog now ("Manifold closed.") .success] })

/-- Regex `/(\d+)\s*\^\s*\{?(\d+)\}?.*?(?:mod|divided by)\s*(\d+)/i`. -/
def modularM (p : List Char) : Option (Nat × Nat × Nat) :=
  (scanM (fun s => do
    let (base, r1) ← digits1 s
    let r2 ← dropLit ("^".data) (dropSpaces r1)
    let r3 := dropSpaces r2
    let r4 := match r3 with
              | c :: rest => if c = lbrace then rest else r3
              | [] => r3
    let (e, r5) ← digits1 r4
    let r6 := match r5 with
              | c :: rest => if c = rbrace then rest else r5
              | [] => r5
    let (m, r7) ← modTail r6
    pure ((base, e, m), r7)) p).map Prod.fst

/-- `solveModular`: square-and-multiply modular exponentiation on BigInts.
`a %= 0n` throws, so a zero modulus is an error; a zero exponent leaves the
accumulator at `1`. -/
def solveModularM : PluginFun := fun now x =>
  match modularM (lowerL x.data) with
  | none => .ok none
  | some (base, e, m) =>
    if m = 0 then .error ("Division by zero")
    else
      let result := jsPowMod base e m
      .ok (some
        { answer := .num (result : ℚ)
          invariantUsed := some .MODULAR
          steps := [("Fast Modular Exponentiation: " ++ toString base ++ "^" ++ toString e ++
                     " (mod " ++ toString m ++ ")"),
                    ("Complexity: O(log exp) traversal"),
                    ("Algorithm: Binary Square-and-Multiply"),
                    ("Outcome: " ++ toString result)]
          logs := [createLog now ("Lumina: Congruence class established for modulus " ++
                     toString m) .info,
                   createLog now ("Fast traversal successful.") .success] })

/-- One match of `/(?:radius|radii|r\d+)\s*(?:of|is|are|=)?\s*(\d+)/gi`. -/
def radiusM (s : List Char) : Option (Nat × List Char) :=
  let cont : List Char → Option (Nat × List Char) := fun r =>
    let r2 := dropSpaces r
    (altStr [("of"), ("is"), ("are"), ("=")] (fun u => digits1 (dropSpaces u)) r2).orElse
      (fun _ => digits1 r2)
  (match dropLit ("radius".data) s with
   | some r => cont r
   | none => none).orElse (fun _ =>
  (match dropLit ("radii".data) s with
   | some r => cont r
   | none => none).orElse (fun _ =>
  match s with
  | c :: rest =>
    if c = 'r' then (digits1 rest).bind (fun dr => cont dr.2)
    else none
  | [] => none))

/-- Trigger list of `solveGeometric`. -/
def geomTriggers : List String :=
  ["sphere", "tangent", "radii", "radius", "circles", "kissing", "touching",
   "distance between centers"]

/-- Ascending insertion into a sorted list (JS `sort((a, b) => a - b)`). -/
def insSorted (n : Nat) : List Nat → List Nat
  | [] => [n]
  | m :: rest => if n ≤ m then n :: m :: rest else m :: insSorted n rest

/-- Ascending sort. -/
def sortNats (l : List Nat) : List Nat := l.foldr insSorted []

/-- The radii selection of `solveGeometric`: all regex captures when there are
at least three, else the sorted filtered word-number fallback, truncated to
three. -/
def geomRadii (x : String) : List Nat :=
  let ms := allM radiusM (x.data.length + 1) (lowerL x.data)
  if 3 ≤ ms.length then ms
  else
    (sortNats ((jsWordNums x.data).filter
      (fun n => decide (0 < n) && decide (n < 1000)))).take 3

/-- `solveGeometric`: Heron's formula on the pairwise radius sums; the float
square root and its rounding live in the `FloatModel`. -/
def solveGeometricM (F : FloatModel) (modn : Int) : PluginFun := fun now x =>
  let p := lowerS x
  if ¬ anyTrigger p geomTriggers then .ok none
  else
    match geomRadii x with
    | r1 :: r2 :: r3 :: _ =>
      let a := r1 + r2
      let b := r2 + r3
      let c := r1 + r3
      .ok (some
        { answer := .num (((F.heronArea r1 r2 r3).tmod modn : ℤ) : ℚ)
          invariantUsed := some .GEOMETRIC
          steps := [("Spherical Kissing condition detected. Radii: " ++ toString r1 ++ ", " ++
                     toString r2 ++ ", " ++ toString r3),
                    ("Geometric Vertex mapping: a=" ++ toString a ++ ", b=" ++ toString b ++
                     ", c=" ++ toString c),
                    ("Applying Heron\x27s Formula for center triangle area"),
                    ("Area: " ++ F.heronAreaStr r1 r2 r3)]
          logs := [createLog now ("Lumina: Geometry engine mapping manifold surface") .info,
                   createLog now ("Area resolved.") .success] })
    | _ => .ok none

/-- `solveRootDynamics` (monolithic wording). -/
def solveRootDynamicsM : PluginFun := fun now x =>
  let p := lowerS x
  if ¬ strIncludes p ("root") then .ok none
  else
    match rootPolyM (lowerL x.data) with
    | none => .ok none
    | some (g1, g2) =>
      let b := rootB g1
      let c := rootC g2
      let e1 := -b
      if strIncludes p ("sum of the roots") then
        .ok (some
          { answer := .num ((e1 : ℤ) : ℚ)
            invariantUsed := some .ROOT_DYNAMICS
            steps := [("Quadratic detected: x² + " ++ toString b ++ "x + " ++ intNaN c ++ " = 0"),
                      ("Vieta\x27s Formula: Sum = -b/a = " ++ toString e1)]
            logs := [createLog now ("Lumina: Vieta manifold resolved sum of roots.") .info] })
      else if strIncludes p ("sum of the squares") then
        let sumSquares : Option Int := c.map (fun cv => e1 * e1 - 2 * cv)
        .ok (some
          { answer := match sumSquares with
                      | some v => .num ((v : ℤ) : ℚ)
                      | none => .nan
            invariantUsed := some .ROOT_DYNAMICS
            steps := [("Quadratic detected: x² + " ++ toString b ++ "x + " ++ intNaN c ++ " = 0"),
                      ("Newton\x27s Sums: P₂ = e₁P₁ - 2e₂"),
                      ("P₁ = e₁ = " ++ toString e1),
                      ("P₂ = " ++ toString e1 ++ "(" ++ toString e1 ++ ") - 2(" ++ intNaN c ++
                       ") = " ++ intNaN sumSquares)]
            logs := [createLog now ("Lumina: Newton-Vieta manifold resolved sum of squares.") .info] })
      else .ok none

/-- `solveSequences` (monolithic wording). -/
def solveSequencesM (F : FloatModel) : PluginFun := fun now x =>
  let p := lowerS x
  if ¬ (strIncludes p ("progression") || strIncludes p ("arithmetic series") ||
        strIncludes p ("geometric series")) then .ok none
  else
    match arithM (lowerL x.data) with
    | some (a, d, n) =>
      let sum := arithSum a d n
      .ok (some
        { answer := .num sum
          invariantUsed := some .SEQUENCES
          steps := [("Arithmetic Progression detected"),
                    ("a=" ++ toString a ++ ", d=" ++ toString d ++ ", n=" ++ toString n),
                    ("Formula: S_n = n/2 * (2a + (n-1)d)"),
                    ("Result: " ++ F.numToStr sum)]
          logs := [createLog now ("Lumina: Arithmetic series manifold closed.") .info] })
    | none => .ok none

/-- `solveFunctionalEq` (monolithic wording). -/
def solveFunctionalEqM : PluginFun := fun now x =>
  let p := lowerS x
  if strIncludes p ("f(m)") && strIncludes p ("f(n)") && strIncludes p ("f(m + n + mn)") then
    match feTargetM (lowerL x.data) with
    | some n =>
      .ok (some
        { answer := .str ("c * log(" ++ toString (n + 1) ++ ")")
          invariantUsed := some .FUNCTIONAL_EQ
          steps := [("Shifted Cauchy functional equation detected"),
                    ("Transformation: Let g(x) = f(x-1)"),
                    ("Identity: g(m+1) + g(n+1) = g((m+1)(n+1))"),
                    ("Deduction: f(n) must be a logarithmic scaling of n+1")]
          logs := [createLog now ("Lumina: Cauchy Shift manifold mapped.") .info] })
    | none => .ok none
  else .ok none

/-- The eleven-entry solver list of the monolithic `solve`, in source order. -/
def engineQueue (F : FloatModel) (modn : Nat) : List PluginFun :=
  [solveSpectralZetaM F, solvePolynomialM F modn, solveNumberTheoryM,
   solveCombinatorialM modn, solveDiophantineM modn, solveRepeatingDecimalM modn,
   solveModularM, solveGeometricM F modn, solveRootDynamicsM, solveSequencesM F,
   solveFunctionalEqM]

/-- The monolithic `AxiomPrimeSolver.solve` of `src/services/solverEngine.ts`. -/
def solveEngine (F : FloatModel) (modn : Nat) (now x : String) : SolverResult :=
  runQueue (fallbackM now) now (engineQueue F modn) x

/-! ## Auxiliary definitions for the verification statements -/

/-- The timestamp-free part of an outcome: answer, tag, steps, and the
severity/message of each log entry (everything except the wall-clock
`timestamp` stamped by `createLog`). -/
def stripRes (r : SolverResult) :
    JSAnswer × Option InvariantType × List String × List (LogKind × String) :=
  (r.answer, r.invariantUsed, r.steps, r.logs.map (fun l => (l.ltype, l.message)))

/-- `stripRes` lifted over a plugin return value. -/
def stripE (e : Except String (Option SolverResult)) :
    Except String (Option (JSAnswer × Option InvariantType × List String × List (LogKind × String))) :=
  e.map (Option.map stripRes)

/-- The answer component of a plugin return value. -/
def answerOf (e : Except String (Option SolverResult)) : Except String (Option JSAnswer) :=
  e.map (Option.map (fun r => r.answer))

/-- The invariant-tag component of a plugin return value. -/
def tagOf (e : Except String (Option SolverResult)) :
    Except String (Option (Option InvariantType)) :=
  e.map (Option.map (fun r => r.invariantUsed))

/-- Comparison definition for claim C7, following the claim's wording rather
than the source: evaluate the interpolated quadratic «as if b = 0 while the
quadratic and constant terms are still computed from the inputs»
(`b := 0`, `c := r1 - b·x1`, value `:= a·tx² + b·tx + c`). -/
def polyAtSlopeZero (a x1 y1 x2 y2 tx : Int) : Except String Fraction := do
  let r1 ← fracMk (y1 - a * x1 * x1) 1
  let _r2 ← fracMk (y2 - a * x2 * x2) 1
  let b ← fracMk 0 1
  let x1f ← fracMk x1 1
  let bx ← fracMul b x1f
  let c ← fracSub r1 bx
  let quadPart ← fracMk (a * tx * tx) 1
  let txf ← fracMk tx 1
  let linPart ← fracMul b txf
  let acc ← fracAdd quadPart linPart
  fracAdd acc c

/-- Concrete scenario 3 of the spec (diagnostic case «COMBINATORIAL: S_n
Intersection Manifold»). -/
def c3input : String :=
  "Let S = \x7b1, 2\x7d. Find the sum of the sizes of the intersections of all ordered pairs of subsets of S."

/-- Concrete scenario 6 of the spec: an input no plugin matches. -/
def apples : String := "How many apples are in a basket if I have 2 and give 1 away?"

/-- Concrete scenario 2 of the spec (Frobenius on 6 and 11). -/
def dio1 : String :=
  "What is the largest integer that cannot be written as a sum of multiples of 6 and 11?"

/-- A Frobenius input whose exact answer `499·500 - 499 - 500 = 248501`
exceeds the default display modulus `100000`. -/
def dio2 : String :=
  "What is the largest integer that cannot be written as a sum of multiples of 499 and 500?"

/-- A concrete arithmetic-progression input (`a = 3`, `d = 4`, `n = 7`). -/
def seq1 : String :=
  "An arithmetic progression has first term 3, common difference 4, and 7 terms."

/-- A concrete accepted outcome used to instantiate dispatch statements. -/
def accOutcome : SolverResult :=
  { answer := .num 5, invariantUsed := some .DIOPHANTINE, steps := [("step")], logs := [] }

/-- A plugin function that always returns `accOutcome`. -/
def accPlug : PluginFun := fun _ _ => .ok (some accOutcome)

/-- A plugin function that always throws. -/
def boomPlug : PluginFun := fun _ _ => .error ("kaboom")

instance [DecidableEq ε] [DecidableEq α] : DecidableEq (Except ε α) := fun a b =>
  match a, b with
  | .error e, .error f =>
    match decEq e f with
    | isTrue h => isTrue (h ▸ rfl)
    | isFalse h => isFalse (fun c => h (Except.error.inj c))
  | .error _, .ok _ => isFalse (fun c => Except.noConfusion c)
  | .ok _, .error _ => isFalse (fun c => Except.noConfusion c)
  | .ok x, .ok y =>
    match decEq x y with
    | isTrue h => isTrue (h ▸ rfl)
    | isFalse h => isFalse (fun c => h (Except.ok.inj c))

/-! # Theorems -/

/-- The constructor rejects a zero denominator. -/
theorem fracMk_zero (n : Int) : fracMk n 0 = .error ("Denominator cannot be zero") := rfl

/-- Every fraction the constructor returns has a positive denominator and
coprime components. -/
theorem fracMk_norm {n d : Int} {f : Fraction} (h : fracMk n d = .ok f) :
    0 < f.den ∧ Int.gcd f.num f.den = 1 := by
  rw [fracMk] at h
  split at h
  · exact absurd h (by simp)
  · rename_i hd
    injection h with h
    subst h
    set a' : Int := if d < 0 then -n else n with ha'
    set b' : Int := if d < 0 then -d else d with hb'
    have hg0 : 0 < Int.gcd n d := by
      rw [Int.gcd_pos_iff]; exact Or.inr hd
    have hgz : (0 : Int) < (Int.gcd n d : Int) := by exact_mod_cast hg0
    have hb'pos : 0 < b' := by
      rw [hb']
      by_cases hdlt : d < 0
      · simp only [if_pos hdlt]; linarith
      · simp only [if_neg hdlt]
        exact lt_of_le_of_ne (not_lt.mp hdlt) (Ne.symm hd)
    have hgcd_ab : Int.gcd a' b' = Int.gcd n d := by
      rw [ha', hb']
      by_cases hdlt : d < 0 <;> simp [hdlt]
    have hdl : ((Int.gcd n d : Int)) ∣ n := Int.gcd_dvd_left
    have hdr : ((Int.gcd n d : Int)) ∣ d := Int.gcd_dvd_right
    have hdvd_a : ((Int.gcd n d : Int)) ∣ a' := by
      rw [ha']
      by_cases hdlt : d < 0
      · simpa [hdlt] using hdl.neg_right
      · simpa [hdlt] using hdl
    have hdvd_b : ((Int.gcd n d : Int)) ∣ b' := by
      rw [hb']
      by_cases hdlt : d < 0
      · simpa [hdlt] using hdr.neg_right
      · simpa [hdlt] using hdr
    constructor
    · show 0 < b'.tdiv (Int.gcd n d)
      rw [Int.tdiv_eq_ediv_of_dvd hdvd_b]
      obtain ⟨k, hk⟩ := hdvd_b
      rw [hk, Int.mul_ediv_cancel_left _ (ne_of_gt hgz)]
      by_contra hk0
      push_neg at hk0
      nlinarith
    · show Int.gcd (a'.tdiv (Int.gcd n d)) (b'.tdiv (Int.gcd n d)) = 1
      rw [Int.tdiv_eq_ediv_of_dvd hdvd_a, Int.tdiv_eq_ediv_of_dvd hdvd_b, ← hgcd_ab]
      exact Int.gcd_div_gcd_div_gcd (hgcd_ab ▸ hg0)

/-- C4: Every `Fraction` value produced by the constructor or by `add`, `sub`,
`mul`, or `div` is in lowest terms with a strictly positive denominator (the
sign carried by the numerator), and constructing with a zero denominator fails
with the division-by-zero error; dividing by a fraction with zero numerator
funnels a zero denominator into the constructor and fails the same way. -/
theorem claim_C4 :
    (∀ n : Int, fracMk n 0 = .error ("Denominator cannot be zero")) ∧
    (∀ n d : Int, ∀ f : Fraction, fracMk n d = .ok f →
      0 < f.den ∧ Int.gcd f.num f.den = 1) ∧
    (∀ a b : Fraction, ∀ f : Fraction, fracAdd a b = .ok f →
      0 < f.den ∧ Int.gcd f.num f.den = 1) ∧
    (∀ a b : Fraction, ∀ f : Fraction, fracSub a b = .ok f →
      0 < f.den ∧ Int.gcd f.num f.den = 1) ∧
    (∀ a b : Fraction, ∀ f : Fraction, fracMul a b = .ok f →
      0 < f.den ∧ Int.gcd f.num f.den = 1) ∧
    (∀ a b : Fraction, ∀ f : Fraction, fracDiv a b = .ok f →
      0 < f.den ∧ Int.gcd f.num f.den = 1) ∧
    (∀ a b : Fraction, b.num = 0 → fracDiv a b = .error ("Denominator cannot be zero")) :=
  ⟨fun n => fracMk_zero n,
   fun _ _ _ h => fracMk_norm h,
   fun _ _ _ h => fracMk_norm h,
   fun _ _ _ h => fracMk_norm h,
   fun _ _ _ h => fracMk_norm h,
   fun _ _ _ h => fracMk_norm h,
   fun a b hb => by rw [fracDiv, hb, mul_zero, fracMk_zero]⟩

/-- Witness for C4 at the concrete construction `Fraction(6, -4) = -3/2`. -/
theorem claim_C4_witness :
    fracMk 6 (-4) = .ok { num := -3, den := 2 } ∧
    (0 < (2 : Int) ∧ Int.gcd (-3 : Int) (2 : Int) = 1) :=
  ⟨by decide, claim_C4.2.1 6 (-4) { num := -3, den := 2 } (by decide)⟩

/-! ## Dispatcher lemmas -/

/-- The empty queue returns the fallback. -/
theorem queueNil (fb : SolverResult) (now x : String) : runQueue fb now [] x = fb := rfl

/-- A non-accepted head (thrown, `null`, or the zero-and-tagless sentinel) is
skipped. -/
theorem queueSkip {now x : String} {f : PluginFun} (h : acceptRes (f now x) = none)
    (fb : SolverResult) (fs : List PluginFun) :
    runQueue fb now (f :: fs) x = runQueue fb now fs x := by
  have e : runQueue fb now (f :: fs) x =
      (match acceptRes (f now x) with
       | some r => r
       | none => runQueue fb now fs x) := rfl
  rw [e, h]

/-- An accepted head is returned immediately. -/
theorem queueHit {now x : String} {f : PluginFun} {r : SolverResult}
    (h : acceptRes (f now x) = some r) (fb : SolverResult) (fs : List PluginFun) :
    runQueue fb now (f :: fs) x = r := by
  have e : runQueue fb now (f :: fs) x =
      (match acceptRes (f now x) with
       | some r => r
       | none => runQueue fb now fs x) := rfl
  rw [e, h]

/-- An outcome that is not the tagless numeric zero passes the filter. -/
theorem acceptRes_pos {r : SolverResult}
    (h : r.answer ≠ .num 0 ∨ r.invariantUsed ≠ none) :
    acceptRes (.ok (some r)) = some r :=
  if_neg (by tauto)

/-- The tagless numeric-zero outcome is rejected by the filter. -/
theorem acceptRes_zero {r : SolverResult} (h1 : r.answer = .num 0)
    (h2 : r.invariantUsed = none) : acceptRes (.ok (some r)) = none :=
  if_pos ⟨h1, h2⟩

set_option maxHeartbeats 1600000 in
/-- The eight plugins land in the registry in registration order (no name
collides, so every `Map.set` appends). -/
theorem registry_order (F : FloatModel) (modn : Nat) :
    mapValues (registryInit F modn) =
      [spectralRec F, polynomialRec F modn, numberTheoryRec, combinatorialRec modn,
       diophantineRec modn, sequencesRec F, rootDynamicsRec, functionalEquationRec] := rfl

set_option maxHeartbeats 1600000 in
/-- The dispatch queue of the registry solver, as plugin functions. -/
theorem registry_funs (F : FloatModel) (modn : Nat) :
    (mapValues (registryInit F modn)).map (fun p => p.run) =
      [solveSpectralP F, solvePolynomialP F modn, solveNumberTheoryP,
       solveCombinatorialP modn, solveDiophantineP modn, solveSequencesP F,
       solveRootDynamicsP, solveFunctionalEqP] := rfl

/-- C1: the registry solver iterates the plugins in the fixed registration
order (Spectral, Polynomial, NumberTheory, Combinatorial, Diophantine,
Sequences, RootDynamics, FunctionalEquation) and returns the first outcome
whose answer is not the numeric zero or whose tag is present; a tagless
numeric-zero outcome is treated as a non-match and scanning continues. -/
theorem claim_C1 :
    (∀ (F : FloatModel) (modn : Nat), mapValues (registryInit F modn) =
      [spectralRec F, polynomialRec F modn, numberTheoryRec, combinatorialRec modn,
       diophantineRec modn, sequencesRec F, rootDynamicsRec, functionalEquationRec]) ∧
    (∀ (F : FloatModel) (modn : Nat) (now x : String),
      solveRegistry F modn now x =
        runQueue (fallbackR now) now ((mapValues (registryInit F modn)).map (fun p => p.run)) x) ∧
    (∀ (fb : SolverResult) (now x : String) (f : PluginFun) (fs : List PluginFun) (r : SolverResult),
      f now x = .ok (some r) → (r.answer ≠ .num 0 ∨ r.invariantUsed ≠ none) →
      runQueue fb now (f :: fs) x = r) ∧
    (∀ (fb : SolverResult) (now x : String) (f : PluginFun) (fs : List PluginFun) (r : SolverResult),
      f now x = .ok (some r) → r.answer = .num 0 → r.invariantUsed = none →
      runQueue fb now (f :: fs) x = runQueue fb now fs x) :=
  ⟨registry_order,
   fun _ _ _ _ => rfl,
   fun fb _ _ _ fs r h hacc => queueHit (by rw [h]; exact acceptRes_pos hacc) fb fs,
   fun fb _ _ _ fs r h h1 h2 => queueSkip (by rw [h]; exact acceptRes_zero h1 h2) fb fs⟩

/-- Witness for C1: a queue whose head returns an accepted non-zero outcome
stops there. -/
theorem claim_C1_witness :
    runQueue (fallbackR ("T")) ("T") [accPlug] ("q") = accOutcome :=
  claim_C1.2.2.1 (fallbackR ("T")) ("T") ("q") accPlug [] accOutcome rfl (Or.inl (by decide))

/-- C6 (amended): a plugin whose `solve` throws is silently skipped — the
scan result is exactly the scan without that plugin (so nothing is logged,
the error never surfaces, and the dispatcher still returns a well-formed
outcome). -/
theorem claim_C6_amended :
    ∀ (pre post : List PluginFun) (f : PluginFun) (fb : SolverResult) (now x e : String),
      f now x = .error e →
      runQueue fb now (pre ++ f :: post) x = runQueue fb now (pre ++ post) x := by
  intro pre
  induction pre with
  | nil =>
    intro post f fb now x e h
    simp only [List.nil_append]
    exact queueSkip (by rw [h]; rfl) fb post
  | cons g gs ih =>
    intro post f fb now x e h
    simp only [List.cons_append]
    cases hacc : acceptRes (g now x) with
    | some r => rw [queueHit hacc, queueHit hacc]
    | none => rw [queueSkip hacc, queueSkip hacc]; exact ih post f fb now x e h

/-- Witness for C6 at a concrete throwing plugin. -/
theorem claim_C6_witness :
    runQueue (fallbackR ("T")) ("T") ([] ++ boomPlug :: []) ("x") =
      runQueue (fallbackR ("T")) ("T") ([] ++ []) ("x") :=
  claim_C6_amended [] [] boomPlug (fallbackR ("T")) ("T") ("x") ("kaboom") rfl

/-- Counterexample to C6 as stated: the dispatcher does *not* log a thrown
error — the outcome after a throwing plugin is exactly the fallback, whose
only log entry is the generic warning; no error-severity entry exists. -/
theorem claim_C6_counterexample :
    boomPlug ("T") ("x") = .error ("kaboom") ∧
    runQueue (fallbackR ("T")) ("T") [boomPlug] ("x") = fallbackR ("T") ∧
    (∀ l ∈ (runQueue (fallbackR ("T")) ("T") [boomPlug] ("x")).logs, l.ltype ≠ .error) := by
  refine ⟨rfl, rfl, ?_⟩
  decide

/-! ## Registry (`Map`) lemmas for C9 -/

/-- When the key is present, `Map.set` rewrites in place (no append). -/
theorem mapSet_of_has {α : Type} {m : List (String × α)} {k : String} {v : α}
    (h : mapHas m k = true) :
    mapSet m k v = m.map (fun e => if e.1 == k then (k, v) else e) := by
  unfold mapSet
  rw [show (m.any fun e => e.1 == k) = true from h]
  simp

/-- After an in-place rewrite, lookup of the key finds the new value. -/
theorem find_map_self {α : Type} {m : List (String × α)} {k : String} {v : α}
    (h : (m.any fun e => e.1 == k) = true) :
    (m.map (fun e => if e.1 == k then (k, v) else e)).find? (fun e => e.1 == k) =
      some (k, v) := by
  induction m with
  | nil => simp at h
  | cons e rest ih =>
    by_cases hek : (e.1 == k) = true
    · simp [hek, List.find?]
    · have h' : (rest.any fun e => e.1 == k) = true := by simpa [hek] using h
      simp only [List.map_cons, List.find?, hek, if_neg]
      simpa [hek] using ih h'

/-- Re-registering an existing name makes `get` return the new record. -/
theorem mapSet_get_self {α : Type} {m : List (String × α)} {k : String} {v : α}
    (h : mapHas m k = true) : mapGet (mapSet m k v) k = some v := by
  rw [mapSet_of_has h]
  unfold mapGet
  rw [find_map_self h]
  rfl

/-- Re-registering an existing name leaves the ordered key listing unchanged. -/
theorem mapSet_keys {α : Type} {m : List (String × α)} {k : String} {v : α}
    (h : mapHas m k = true) : mapKeys (mapSet m k v) = mapKeys m := by
  rw [mapSet_of_has h]
  unfold mapKeys
  rw [List.map_map]
  apply List.map_congr_left
  intro e _
  by_cases hek : (e.1 == k) = true
  · simp [hek, (beq_iff_eq.mp hek).symm]
  · have hne : ¬ e.1 = k := by simpa using hek
    simp [hne]

/-- `find?` on a cons, as an `if`. -/
theorem findCons {β : Type} (p : β → Bool) (a : β) (l : List β) :
    List.find? p (a :: l) = if p a = true then some a else List.find? p l := by
  by_cases h : p a = true
  · rw [List.find?_cons_of_pos _ h, if_pos h]
  · rw [List.find?_cons_of_neg _ h, if_neg h]

/-- The in-place rewrite does not change lookups of other names. -/
theorem find_map_other {α : Type} {k : String} {v : α} {k2 : String} (h2 : k2 ≠ k) :
    ∀ m : List (String × α),
      (m.map (fun e => if e.1 == k then (k, v) else e)).find? (fun e => e.1 == k2) =
        m.find? (fun e => e.1 == k2) := by
  intro m
  induction m with
  | nil => rfl
  | cons e rest ih =>
    rw [List.map_cons, findCons, findCons]
    by_cases hek : (e.1 == k) = true
    · rw [if_pos hek]
      have he1 : e.1 = k := beq_iff_eq.mp hek
      have hpk : ¬ (((k, v) : String × α).1 == k2) = true := by
        simp only [beq_iff_eq]
        exact fun c => h2 c.symm
      have hpe : ¬ (e.1 == k2) = true := by
        simp only [beq_iff_eq, he1]
        exact fun c => h2 c.symm
      rw [if_neg hpk, if_neg hpe]
      exact ih
    · rw [if_neg hek]
      by_cases hek2 : (e.1 == k2) = true
      · rw [if_pos hek2, if_pos hek2]
      · rw [if_neg hek2, if_neg hek2]
        exact ih

/-- Lookups of other names are unaffected by the replacement. -/
theorem mapSet_get_other {α : Type} {m : List (String × α)} {k : String} {v : α}
    {k2 : String} (h : mapHas m k = true) (h2 : k2 ≠ k) :
    mapGet (mapSet m k v) k2 = mapGet m k2 := by
  rw [mapSet_of_has h]
  unfold mapGet
  rw [find_map_other h2]

/-- C9: registering a plugin under an already-registered name replaces the
stored record in place — `getPlugin` then returns the new record, the ordered
name listing is unchanged (no duplicate introduced, original position kept),
and other names are unaffected. -/
theorem claim_C9 :
    ∀ (α : Type) (m : List (String × α)) (k : String) (v : α),
      mapHas m k = true →
      mapGet (mapSet m k v) k = some v ∧
      mapKeys (mapSet m k v) = mapKeys m ∧
      ((mapKeys m).Nodup → (mapKeys (mapSet m k v)).Nodup) ∧
      (∀ k2 : String, k2 ≠ k → mapGet (mapSet m k v) k2 = mapGet m k2) :=
  fun _ _ _ _ h =>
    ⟨mapSet_get_self h, mapSet_keys h,
     fun hnd => (mapSet_keys h) ▸ hnd,
     fun _ h2 => mapSet_get_other h h2⟩

/-- Witness for C9 on a concrete two-entry registry. -/
theorem claim_C9_witness :
    mapGet (mapSet [(("a" : String), 1), (("b" : String), 2)] ("a") 9) ("a") = some 9 ∧
    mapKeys (mapSet [(("a" : String), 1), (("b" : String), 2)] ("a") 9) =
      mapKeys [(("a" : String), 1), (("b" : String), 2)] ∧
    (mapKeys (mapSet [(("a" : String), 1), (("b" : String), 2)] ("a") 9)).Nodup := by
  have h := claim_C9 Nat [(("a" : String), 1), (("b" : String), 2)] ("a") 9 (by decide)
  exact ⟨h.1, h.2.1, h.2.2.1 (by decide)⟩

/-- C5 (amended): when no plugin produces an accepted outcome, the registry
solver returns the sentinel — answer `0`, no invariant tag, the single step
«No deterministic invariant found. Switching to stochastic logic engine.»,
and one warning-level log entry pointing the caller at the external
fallback. -/
theorem claim_C5_amended :
    (∀ (F : FloatModel) (modn : Nat) (now x : String),
      acceptRes (solveSpectralP F now x) = none →
      acceptRes (solvePolynomialP F modn now x) = none →
      acceptRes (solveNumberTheoryP now x) = none →
      acceptRes (solveCombinatorialP modn now x) = none →
      acceptRes (solveDiophantineP modn now x) = none →
      acceptRes (solveSequencesP F now x) = none →
      acceptRes (solveRootDynamicsP now x) = none →
      acceptRes (solveFunctionalEqP now x) = none →
      solveRegistry F modn now x = fallbackR now) ∧
    (∀ now : String, fallbackR now =
      { answer := .num 0
        invariantUsed := none
        steps := [("No deterministic invariant found. Switching to stochastic logic engine.")]
        logs := [createLog now ("Analysis: Deterministic bypass. Engaging Gemini engine.") .warning] }) := by
  constructor
  · intro F modn now x h1 h2 h3 h4 h5 h6 h7 h8
    show runQueue (fallbackR now) now
        ((mapValues (registryInit F modn)).map (fun p => p.run)) x = fallbackR now
    rw [registry_funs, queueSkip h1, queueSkip h2, queueSkip h3, queueSkip h4,
        queueSkip h5, queueSkip h6, queueSkip h7, queueSkip h8, queueNil]
  · intro now
    rfl

/-- Witness for C5 at the spec's concrete no-match scenario. -/
theorem claim_C5_witness :
    solveRegistry floatDummy 100000 ("T") apples = fallbackR ("T") :=
  claim_C5_amended.1 floatDummy 100000 ("T") apples (by decide) (by decide) (by decide)
    (by decide) (by decide) (by decide) (by decide) (by decide)

/-- Counterexample to C5 as stated: on the no-match input the sentinel's steps
are *not* the claimed `["No deterministic invariant matched."]` (they are the
«No deterministic invariant found…» sentence), though answer `0` and the
absent tag hold. -/
theorem claim_C5_counterexample :
    (solveRegistry floatDummy 100000 ("T") apples).steps ≠
      [("No deterministic invariant matched.")] ∧
    (solveRegistry floatDummy 100000 ("T") apples).answer = .num 0 ∧
    (solveRegistry floatDummy 100000 ("T") apples).invariantUsed = none ∧
    (solveRegistry floatDummy 100000 ("T") apples).steps =
      [("No deterministic invariant found. Switching to stochastic logic engine.")] := by
  decide

/-- C2 (amended): on any input that triggers the Diophantine plugin and
yields first two filtered integers `a`, `b` (necessarily in `[2, 500]`), the
answer is the string sentinel `"Infinity"` when `gcd(a,b) ≠ 1`, and otherwise
the numeric value `(a·b - a - b) mod modulus` — the exact Frobenius number
only while it stays below the configured display modulus. -/
theorem claim_C2_amended :
    ∀ (modn : Int) (now x : String) (a b : Nat) (rest : List Nat),
      anyTrigger (lowerS x) diophTriggers = true →
      diophCoeffs x = a :: b :: rest →
      (2 ≤ a ∧ a ≤ 500 ∧ 2 ≤ b ∧ b ≤ 500) ∧
      (Nat.gcd a b = 1 →
        answerOf (solveDiophantineP modn now x) =
          .ok (some (.num ((((a : ℤ) * b - a - b).tmod modn : ℤ) : ℚ))) ∧
        tagOf (solveDiophantineP modn now x) = .ok (some (some .DIOPHANTINE))) ∧
      (Nat.gcd a b ≠ 1 →
        answerOf (solveDiophantineP modn now x) = .ok (some (.str ("Infinity"))) ∧
        tagOf (solveDiophantineP modn now x) = .ok (some (some .DIOPHANTINE))) := by
  intro modn now x a b rest htrig hco
  have hamem : a ∈ diophCoeffs x := by
    rw [hco]; exact List.mem_cons_self _ _
  have hbmem : b ∈ diophCoeffs x := by
    rw [hco]; exact List.mem_cons_of_mem _ (List.mem_cons_self _ _)
  have hpa := List.of_mem_filter hamem
  have hpb := List.of_mem_filter hbmem
  rw [Bool.and_eq_true, decide_eq_true_iff, decide_eq_true_iff] at hpa hpb
  refine ⟨⟨hpa.1, hpa.2, hpb.1, hpb.2⟩, ?_, ?_⟩
  · intro hg
    constructor <;>
      simp [solveDiophantineP, htrig, hco, hg, answerOf, tagOf, Except.map]
  · intro hg
    constructor <;>
      simp [solveDiophantineP, htrig, hco, hg, answerOf, tagOf, Except.map]

/-- Witness for C2 at the spec's Frobenius scenario (generators 6 and 11,
answer 49). -/
theorem claim_C2_witness :
    ((2 ≤ 6 ∧ 6 ≤ 500 ∧ 2 ≤ 11 ∧ 11 ≤ 500) ∧
     (Nat.gcd 6 11 = 1 →
       answerOf (solveDiophantineP 100000 ("T") dio1) =
         .ok (some (.num ((((6 : ℤ) * 11 - 6 - 11).tmod 100000 : ℤ) : ℚ))) ∧
       tagOf (solveDiophantineP 100000 ("T") dio1) = .ok (some (some .DIOPHANTINE))) ∧
     (Nat.gcd 6 11 ≠ 1 →
       answerOf (solveDiophantineP 100000 ("T") dio1) = .ok (some (.str ("Infinity"))) ∧
       tagOf (solveDiophantineP 100000 ("T") dio1) = .ok (some (some .DIOPHANTINE)))) :=
  claim_C2_amended 100000 ("T") dio1 6 11 [] (by decide) (by decide)

/-- Counterexample to C2 as stated: for the coprime pair (499, 500) the exact
Frobenius number is 248501, but the plugin answers `248501 mod 100000 =
48501`. -/
theorem claim_C2_counterexample :
    Nat.gcd 499 500 = 1 ∧
    ((499 * 500 - 499 - 500 : ℤ) = 248501) ∧
    answerOf (solveDiophantineP 100000 ("T") dio2) = .ok (some (.num 48501)) ∧
    (JSAnswer.num 48501 ≠ JSAnswer.num 248501) := by
  decide

/-- The constructor on an integer (denominator 1) is exact. -/
theorem fracMk_one (n : Int) : fracMk n 1 = .ok { num := n, den := 1 } := by
  simp [fracMk, Int.tdiv_one]

/-- C7 (amended): when the two x-coordinates coincide, `getPolynomialAt`
returns the zero fraction for the *whole* polynomial value — the quadratic
and constant terms are dropped along with the slope, whatever the leading
coefficient, ordinates, and target are. -/
theorem claim_C7_amended :
    ∀ a x1 y1 y2 tx : Int, getPolynomialAt a x1 y1 x1 y2 tx = .ok { num := 0, den := 1 } := by
  intro a x1 y1 y2 tx
  simp only [getPolynomialAt, fracMk_one, Except.bind]
  rfl

/-- Counterexample to C7 as stated: at `a = 1`, coincident abscissa `x1 = x2
= 0`, `y1 = 1`, target `0`, evaluating «as if b = 0 with quadratic and
constant terms still computed» would give the constant `r1 = 1`, but the code
returns the zero fraction. -/
theorem claim_C7_counterexample :
    getPolynomialAt 1 0 1 0 2 0 = .ok { num := 0, den := 1 } ∧
    polyAtSlopeZero 1 0 1 0 2 0 = .ok { num := 1, den := 1 } ∧
    ({ num := 0, den := 1 } : Fraction) ≠ { num := 1, den := 1 } := by
  decide

/-- The arithmetic-series sum is always an exact integer. -/
theorem arithSum_int (a d n : Nat) : ∃ z : ℤ, arithSum a d n = (z : ℚ) := by
  rcases Nat.even_or_odd n with ⟨m, hm⟩ | ⟨m, hm⟩
  · refine ⟨(m : ℤ) * (2 * a + (2 * m - 1) * d), ?_⟩
    subst hm
    unfold arithSum
    push_cast
    ring
  · refine ⟨((2 * m + 1 : ℤ)) * (a + m * d), ?_⟩
    subst hm
    unfold arithSum
    push_cast
    ring

/-- C10: on every input the Sequences plugin matches (first term `a`, common
difference `d`, term count `n`), the computed sum `(n/2)·(2a + (n-1)d)` is an
exact integer — in particular for odd `n` the factor `2a + (n-1)d` is even —
so the answer never has a fractional part. -/
theorem claim_C10 :
    ∀ (F : FloatModel) (now x : String) (a d n : Nat),
      (strIncludes (lowerS x) ("progression") || strIncludes (lowerS x) ("arithmetic series") ||
       strIncludes (lowerS x) ("geometric series")) = true →
      arithM (lowerL x.data) = some (a, d, n) →
      answerOf (solveSequencesP F now x) = .ok (some (.num (arithSum a d n))) ∧
      (∃ z : ℤ, arithSum a d n = (z : ℚ)) ∧
      (Odd n → Even (2 * (a : ℤ) + ((n : ℤ) - 1) * d)) := by
  intro F now x a d n htrig hm
  refine ⟨?_, arithSum_int a d n, ?_⟩
  · simp [solveSequencesP, htrig, hm, answerOf, Except.map]
  · rintro ⟨m, hm2⟩
    refine ⟨(a : ℤ) + m * d, ?_⟩
    have : (n : ℤ) = 2 * m + 1 := by exact_mod_cast congrArg (Nat.cast : Nat → ℤ) hm2
    rw [this]
    ring

/-- Witness for C10 at the concrete progression `a = 3`, `d = 4`, `n = 7`
(sum 105). -/
theorem claim_C10_witness :
    answerOf (solveSequencesP floatDummy ("T") seq1) = .ok (some (.num (arithSum 3 4 7))) ∧
    (∃ z : ℤ, arithSum 3 4 7 = (z : ℚ)) ∧
    (Odd 7 → Even (2 * (3 : ℤ) + ((7 : ℤ) - 1) * 4)) :=
  claim_C10 floatDummy ("T") seq1 3 4 7 (by decide) (by decide)

/-! ## C3: the Combinatorial scenario through the monolithic dispatcher -/

/-- Spectral skip when its trigger words are absent. -/
theorem spectralM_none {F : FloatModel} {now x : String}
    (h : anyTrigger (lowerS x) spectralTriggersM = false) :
    solveSpectralZetaM F now x = .ok none := by
  simp [solveSpectralZetaM, h]

/-- Polynomial skip when the guard/extraction prefix fails. -/
theorem polyM_none {F : FloatModel} {modn : Int} {now x : String}
    (h : polyData x = none) : solvePolynomialM F modn now x = .ok none := by
  simp [solvePolynomialM, h]

/-- Number-theory skip when neither the binomial pattern nor the totient
trigger fires. -/
theorem ntM_none {now x : String}
    (h1 : binomM (lowerL x.data) = none)
    (h2 : (strIncludes (lowerS x) ("totient") || strIncludes (lowerS x) ("phi") ||
      (strIncludes (lowerS x) ("relatively prime") && strIncludes (lowerS x) ("less than")))
      = false) :
    solveNumberTheoryM now x = .ok none := by
  simp [solveNumberTheoryM, h1, h2]

/-- The monolithic Combinatorial solver on the concrete scenario-3 input:
the set-literal pattern resolves `n = 2` and the identity yields
`2 · 4¹ = 8`. -/
theorem combM_c3 (now : String) :
    solveCombinatorialM 100000 now c3input = .ok (some
      { answer := .num 8
        invariantUsed := some .COMBINATORIAL
        steps := [("Subset Intersection Identity (S_n) for n=2"),
                  ("Axiomatic Mapping: Σ |A ∩ B| = n * 4^(n-1)"),
                  ("Reasoning: Each element i is in both A and B in 1/4 of total 2^n * 2^n pairs."),
                  ("Calculation: 2 * 4^(2-1) = 8")]
        logs := [createLog now ("Lumina: Combinatorial manifold mapped to 4^n space") .info,
                 createLog now ("Identity resolved.") .success] }) := rfl

/-- C3: on «Let S = {1, 2}. Find the sum of the sizes of the intersections of
all ordered pairs of subsets of S.» the monolithic `solve` answers 8 with the
Combinatorial tag; and in general the Combinatorial solver resolves `n` as
the first success among the `S_n`/`n=` regex, the literal set cardinality,
and the «set of N elements» phrasing. -/
theorem claim_C3 :
    (∀ (F : FloatModel) (now : String),
      (solveEngine F 100000 now c3input).answer = .num 8 ∧
      (solveEngine F 100000 now c3input).invariantUsed = some .COMBINATORIAL) ∧
    (∀ x : String, combNMono x =
      (combNRegex (lowerL x.data)).orElse (fun _ =>
        (combNSet x.data).orElse (fun _ => combNElem (lowerL x.data)))) := by
  constructor
  · intro F now
    have e : solveEngine F 100000 now c3input =
        { answer := .num 8
          invariantUsed := some .COMBINATORIAL
          steps := [("Subset Intersection Identity (S_n) for n=2"),
                    ("Axiomatic Mapping: Σ |A ∩ B| = n * 4^(n-1)"),
                    ("Reasoning: Each element i is in both A and B in 1/4 of total 2^n * 2^n pairs."),
                    ("Calculation: 2 * 4^(2-1) = 8")]
          logs := [createLog now ("Lumina: Combinatorial manifold mapped to 4^n space") .info,
                   createLog now ("Identity resolved.") .success] } := by
      show runQueue (fallbackM now) now (engineQueue F 100000) c3input = _
      rw [show engineQueue F 100000 =
        [solveSpectralZetaM F, solvePolynomialM F 100000, solveNumberTheoryM,
         solveCombinatorialM 100000, solveDiophantineM 100000, solveRepeatingDecimalM 100000,
         solveModularM, solveGeometricM F 100000, solveRootDynamicsM, solveSequencesM F,
         solveFunctionalEqM] from rfl]
      have h1 : acceptRes (solveSpectralZetaM F now c3input) = none := by
        rw [spectralM_none (by decide)]; rfl
      have h2 : acceptRes (solvePolynomialM F 100000 now c3input) = none := by
        rw [polyM_none (by decide)]; rfl
      have h3 : acceptRes (solveNumberTheoryM now c3input) = none := by
        rw [ntM_none (by decide) (by decide)]; rfl
      have h4 : acceptRes (solveCombinatorialM 100000 now c3input) = some
          { answer := .num 8
            invariantUsed := some .COMBINATORIAL
            steps := [("Subset Intersection Identity (S_n) for n=2"),
                      ("Axiomatic Mapping: Σ |A ∩ B| = n * 4^(n-1)"),
                      ("Reasoning: Each element i is in both A and B in 1/4 of total 2^n * 2^n pairs."),
                      ("Calculation: 2 * 4^(2-1) = 8")]
            logs := [createLog now ("Lumina: Combinatorial manifold mapped to 4^n space") .info,
                     createLog now ("Identity resolved.") .success] } := by
        rw [combM_c3]; rfl
      rw [queueSkip h1, queueSkip h2, queueSkip h3, queueHit h4]
    rw [e]
    exact ⟨rfl, rfl⟩
  · intro x
    unfold combNMono
    cases h1 : combNRegex (lowerL x.data) <;>
      cases h2 : combNSet x.data <;>
        simp [h1, h2, Option.orElse]

/-! ## C8: determinism modulo the clock

Every plugin's branching, answer, tag, steps, and log messages depend only on
the problem text (and the float model); the clock string only lands in the
log timestamps.  `stripE` removes exactly those timestamps. -/

/-- Spectral plugin: timestamp-invariant modulo log timestamps. -/
theorem spectral_strip (F : FloatModel) (t t' x : String) :
    stripE (solveSpectralP F t x) = stripE (solveSpectralP F t' x) := by
  unfold solveSpectralP
  by_cases h : anyTrigger (lowerS x) spectralTriggers = true <;>
    simp [h, stripE, stripRes, createLog, Except.map, Option.map]

/-- `Except` bind on an error short-circuits. -/
theorem exBindErr {α β : Type} (e : String) (f : α → Except String β) :
    ((Except.error e : Except String α) >>= f) = .error e := rfl

/-- `Except` bind on a success applies the continuation. -/
theorem exBindOk {α β : Type} (a : α) (f : α → Except String β) :
    ((Except.ok a : Except String α) >>= f) = f a := rfl

/-- Polynomial plugin: timestamp-invariant modulo log timestamps. -/
theorem poly_strip (F : FloatModel) (modn : Int) (t t' x : String) :
    stripE (solvePolynomialP F modn t x) = stripE (solvePolynomialP F modn t' x) := by
  unfold solvePolynomialP
  cases hp : polyData x with
  | none => rfl
  | some v =>
    obtain ⟨a1, a2, x1, y1, x2, y2, tx⟩ := v
    cases hg1 : getPolynomialAt a1 x1 y1 x2 y2 tx with
    | error e => simp [hg1, stripE, exBindErr, exBindOk, Except.map]
    | ok pV =>
      cases hg2 : getPolynomialAt a2 x1 y1 x2 y2 tx with
      | error e => simp [hg1, hg2, stripE, exBindErr, exBindOk, Except.map]
      | ok qV =>
        cases ht : fracAdd pV qV with
        | error e => simp [hg1, hg2, ht, stripE, exBindErr, exBindOk, Except.map]
        | ok tot =>
          simp [hg1, hg2, ht, stripE, stripRes, createLog, exBindErr, exBindOk,
                Except.map, Option.map]

/-- Number-theory plugin: timestamp-invariant modulo log timestamps. -/
theorem nt_strip (t t' x : String) :
    stripE (solveNumberTheoryP t x) = stripE (solveNumberTheoryP t' x) := by
  unfold solveNumberTheoryP
  cases hb : binomM (lowerL x.data) with
  | some v =>
    obtain ⟨n, k, pv⟩ := v
    cases hl : lucasJS n k pv <;>
      simp [hl, stripE, stripRes, createLog, Except.map, Option.map]
  | none =>
    by_cases ht : (strIncludes (lowerS x) ("totient") || strIncludes (lowerS x) ("phi") ||
        (strIncludes (lowerS x) ("relatively prime") && strIncludes (lowerS x) ("less than")))
        = true
    · cases hf : firstNum x.data <;>
        simp [ht, hf, stripE, stripRes, createLog, Except.map, Option.map]
    · simp [ht]

/-- Combinatorial plugin: timestamp-invariant modulo log timestamps. -/
theorem comb_strip (modn : Nat) (t t' x : String) :
    stripE (solveCombinatorialP modn t x) = stripE (solveCombinatorialP modn t' x) := by
  unfold solveCombinatorialP
  by_cases h : anyTrigger (lowerS x) combTriggersP = true
  · cases hn : combNRegex (lowerL x.data) with
    | none => simp [h, hn]
    | some n => cases n <;> simp [h, hn, stripE, stripRes, createLog, Except.map, Option.map]
  · simp [h]

/-- Diophantine plugin: timestamp-invariant modulo log timestamps. -/
theorem dioph_strip (modn : Int) (t t' x : String) :
    stripE (solveDiophantineP modn t x) = stripE (solveDiophantineP modn t' x) := by
  unfold solveDiophantineP
  by_cases h : anyTrigger (lowerS x) diophTriggers = true
  · cases hc : diophCoeffs x with
    | nil => simp [h, hc]
    | cons a rest =>
      cases rest with
      | nil => simp [h, hc]
      | cons b rest2 =>
        by_cases hg : Nat.gcd a b ≠ 1 <;>
          simp [h, hc, hg, stripE, stripRes, createLog, Except.map, Option.map]
  · simp [h]

/-- Sequences plugin: timestamp-invariant modulo log timestamps. -/
theorem seq_strip (F : FloatModel) (t t' x : String) :
    stripE (solveSequencesP F t x) = stripE (solveSequencesP F t' x) := by
  unfold solveSequencesP
  by_cases h : (strIncludes (lowerS x) ("progression") ||
      strIncludes (lowerS x) ("arithmetic series") ||
      strIncludes (lowerS x) ("geometric series")) = true
  · cases hm : arithM (lowerL x.data) with
    | none => simp [h, hm]
    | some v =>
      obtain ⟨a, d, n⟩ := v
      simp [h, hm, stripE, stripRes, createLog, Except.map, Option.map]
  · simp [h]

/-- Root-dynamics plugin: timestamp-invariant modulo log timestamps. -/
theorem root_strip (t t' x : String) :
    stripE (solveRootDynamicsP t x) = stripE (solveRootDynamicsP t' x) := by
  unfold solveRootDynamicsP
  by_cases h : strIncludes (lowerS x) ("root") = true
  · cases hm : rootPolyM (lowerL x.data) with
    | none => simp [h, hm]
    | some g =>
      obtain ⟨g1, g2⟩ := g
      by_cases h1 : strIncludes (lowerS x) ("sum of the roots") = true
      · simp [h, hm, h1, stripE, stripRes, createLog, Except.map, Option.map]
      · by_cases h2 : strIncludes (lowerS x) ("sum of the squares") = true <;>
          simp [h, hm, h1, h2, stripE, stripRes, createLog, Except.map, Option.map]
  · simp [h]

/-- Functional-equation plugin: timestamp-invariant modulo log timestamps. -/
theorem fe_strip (t t' x : String) :
    stripE (solveFunctionalEqP t x) = stripE (solveFunctionalEqP t' x) := by
  unfold solveFunctionalEqP
  by_cases h : (strIncludes (lowerS x) ("f(m)") && strIncludes (lowerS x) ("f(n)") &&
      strIncludes (lowerS x) ("f(m + n + mn)")) = true
  · cases hm : feTargetM (lowerL x.data) <;>
      simp [h, hm, stripE, stripRes, createLog, Except.map, Option.map]
  · simp [h]

/-- The acceptance filter only inspects timestamp-free data, so strip-equal
plugin returns are accepted or rejected together, with strip-equal payloads. -/
theorem acceptRes_strip {r1 r2 : Except String (Option SolverResult)}
    (h : stripE r1 = stripE r2) :
    (acceptRes r1 = none ∧ acceptRes r2 = none) ∨
    (∃ a b, acceptRes r1 = some a ∧ acceptRes r2 = some b ∧ stripRes a = stripRes b) := by
  cases r1 with
  | error e1 =>
    cases r2 with
    | error e2 => exact Or.inl ⟨rfl, rfl⟩
    | ok o2 => simp [stripE, Except.map] at h
  | ok o1 =>
    cases r2 with
    | error e2 => simp [stripE, Except.map] at h
    | ok o2 =>
      cases o1 with
      | none =>
        cases o2 with
        | none => exact Or.inl ⟨rfl, rfl⟩
        | some b => simp [stripE, Except.map] at h
      | some a =>
        cases o2 with
        | none => simp [stripE, Except.map] at h
        | some b =>
          simp only [stripE, Except.map, Option.map, Except.ok.injEq, Option.some.injEq] at h
          have hans : a.answer = b.answer := congrArg Prod.fst h
          have htag : a.invariantUsed = b.invariantUsed :=
            congrArg (fun p => p.2.1) h
          by_cases hz : a.answer = .num 0 ∧ a.invariantUsed = none
          · refine Or.inl ⟨if_pos hz, if_pos ?_⟩
            exact ⟨hans ▸ hz.1, htag ▸ hz.2⟩
          · refine Or.inr ⟨a, b, if_neg hz, if_neg ?_, h⟩
            rw [← hans, ← htag]
            exact hz

/-- C8 (amended): two `solve` calls on the same registry agree on answer,
invariant tag, steps, and the severity and message of every log entry — the
only clock dependence is the log timestamps stamped by `createLog`. -/
theorem claim_C8_amended :
    ∀ (F : FloatModel) (modn : Nat) (t1 t2 x : String),
      stripRes (solveRegistry F modn t1 x) = stripRes (solveRegistry F modn t2 x) := by
  intro F modn t1 t2 x
  have e1 : solveRegistry F modn t1 x = runQueue (fallbackR t1) t1
      [solveSpectralP F, solvePolynomialP F modn, solveNumberTheoryP,
       solveCombinatorialP modn, solveDiophantineP modn, solveSequencesP F,
       solveRootDynamicsP, solveFunctionalEqP] x := by
    show runQueue (fallbackR t1) t1
        ((mapValues (registryInit F modn)).map (fun p => p.run)) x = _
    rw [registry_funs]
  have e2 : solveRegistry F modn t2 x = runQueue (fallbackR t2) t2
      [solveSpectralP F, solvePolynomialP F modn, solveNumberTheoryP,
       solveCombinatorialP modn, solveDiophantineP modn, solveSequencesP F,
       solveRootDynamicsP, solveFunctionalEqP] x := by
    show runQueue (fallbackR t2) t2
        ((mapValues (registryInit F modn)).map (fun p => p.run)) x = _
    rw [registry_funs]
  rw [e1, e2]
  have step : ∀ (f : PluginFun) (fs1 fs2 : List PluginFun),
      stripE (f t1 x) = stripE (f t2 x) →
      stripRes (runQueue (fallbackR t1) t1 fs1 x) =
        stripRes (runQueue (fallbackR t2) t2 fs2 x) →
      stripRes (runQueue (fallbackR t1) t1 (f :: fs1) x) =
        stripRes (runQueue (fallbackR t2) t2 (f :: fs2) x) := by
    intro f fs1 fs2 hf hrest
    rcases acceptRes_strip hf with ⟨h1, h2⟩ | ⟨a, b, h1, h2, hab⟩
    · rw [queueSkip h1, queueSkip h2]; exact hrest
    · rw [queueHit h1, queueHit h2]; exact hab
  apply step _ _ _ (spectral_strip F t1 t2 x)
  apply step _ _ _ (poly_strip F modn t1 t2 x)
  apply step _ _ _ (nt_strip t1 t2 x)
  apply step _ _ _ (comb_strip modn t1 t2 x)
  apply step _ _ _ (dioph_strip modn t1 t2 x)
  apply step _ _ _ (seq_strip F t1 t2 x)
  apply step _ _ _ (root_strip t1 t2 x)
  apply step _ _ _ (fe_strip t1 t2 x)
  rfl

/-- Counterexample to C8 as stated: two calls whose clock readings differ
return outcomes that are not literally identical — the log timestamps
differ. -/
theorem claim_C8_counterexample :
    solveRegistry floatDummy 100000 ("00:00:00") apples ≠
      solveRegistry floatDummy 100000 ("00:00:01") apples := by
  decide

end MathSolver
